import Mathlib

set_option maxRecDepth 8000

/-!
Verification of the Android XML preview converter (`src/extension.ts` and the
`part_001` variant) against its natural-language specification.

The TypeScript source is shallowly embedded:
* JavaScript values reachable from the XML parser output (strings, numbers,
  booleans, arrays, objects) are modelled by the mutual inductive `JValue`.
* JavaScript numbers are modelled as exact decimal values `JNum`
  (`mant / 10 ^ exp`).  Every numeric literal and every arithmetic step the
  embedded code performs (`bias * 100`) is exactly representable in binary
  floating point for the inputs exercised here, so the exact-decimal model
  agrees with IEEE-754 evaluation on them; float-rounding artefacts and the
  special values besides `NaN` (modelled as `Option.none` where a `parseFloat`
  or `parseInt` result can be `NaN`) are outside the model.
* String-returning functions build the exact template-literal text of the
  source, including all whitespace.  String helpers (`includes`,
  `startsWith`, `toLowerCase`, `replace` with a string or anchored-regex
  pattern, and the global regex replace `/transform:[^;]+;/g`) are defined
  over the character list of the string.
-/

/-! ## JavaScript number model: exact decimals -/

/-- A JavaScript number value `mant / 10 ^ exp`, exact. -/
structure JNum where
  mant : ℤ
  exp : ℕ
deriving DecidableEq

/-- Digit character for `d % 10`. -/
def digitChar (d : ℕ) : Char := Char.ofNat (48 + d % 10)

/-- Decimal digits of `n` (big endian), driven by fuel; `[]` for `n = 0`. -/
def natDigitsAux : ℕ → ℕ → List Char
  | 0, _ => []
  | _, 0 => []
  | fuel+1, n+1 => natDigitsAux fuel ((n+1) / 10) ++ [digitChar (n+1)]

/-- Decimal rendering of a natural number. -/
def natStr (n : ℕ) : String := if n = 0 then "0" else String.mk (natDigitsAux n n)

/-- Decimal rendering of an integer, as JavaScript `toString` renders it. -/
def intStr (i : ℤ) : String := if i < 0 then "-" ++ natStr i.natAbs else natStr i.natAbs

/-- Remove trailing decimal zeros: scales `(m, e)` down while `e > 0` and
`10 ∣ m`, so the rendering below matches the shortest JavaScript output. -/
def stripZeros : ℕ → ℤ → ℕ → (ℤ × ℕ)
  | _, m, 0 => (m, 0)
  | 0, m, e => (m, e)
  | fuel+1, m, e+1 => if m % 10 = 0 then stripZeros fuel (m / 10) e else (m, e+1)

/-- Left-pad a digit list with `'0'` to length `k`. -/
def padTo (k : ℕ) (ds : List Char) : List Char :=
  List.replicate (k - ds.length) '0' ++ ds

/-- Rendering of a nonnegative decimal `n / 10 ^ e`. -/
def jsNumToStringNat (n : ℕ) (e : ℕ) : String :=
  if e = 0 then natStr n
  else
    let ds := padTo (e+1) (natDigitsAux n n)
    String.mk (ds.take (ds.length - e)) ++ "." ++ String.mk (ds.drop (ds.length - e))

/-- JavaScript number-to-string conversion on the exact-decimal model. -/
def jsNumToString (q : JNum) : String :=
  let p := stripZeros q.exp q.mant q.exp
  if p.1 < 0 then "-" ++ jsNumToStringNat p.1.natAbs p.2 else jsNumToStringNat p.1.natAbs p.2

/-- Exact product of two JavaScript numbers. -/
def jsMulNum (a b : JNum) : JNum := ⟨a.mant * b.mant, a.exp + b.exp⟩

/-! ## Parsing numbers from strings (`parseInt` / `parseFloat`) -/

/-- Numeric value of a decimal digit character, if it is one. -/
def digitVal (c : Char) : Option ℕ :=
  if '0' ≤ c ∧ c ≤ '9' then some (c.toNat - 48) else none

/-- Split a maximal run of decimal digits off the front of the list. -/
def takeDigits : List Char → (List ℕ × List Char)
  | [] => ([], [])
  | c :: cs =>
    match digitVal c with
    | some d => ((d :: (takeDigits cs).1), (takeDigits cs).2)
    | none => ([], c :: cs)

/-- Value of a big-endian digit list. -/
def digitsVal (ds : List ℕ) : ℕ := ds.foldl (fun a d => 10 * a + d) 0

/-- Maximal digit run parsed as a natural number; `none` when no digits. -/
def parseNatPart (l : List Char) : Option (ℕ × List Char) :=
  match takeDigits l with
  | ([], _) => none
  | (ds, r) => some (digitsVal ds, r)

/-- JavaScript `parseInt` (decimal): optional sign then digits; `none` = NaN. -/
def jsParseInt (s : String) : Option ℤ :=
  match s.data.dropWhile (fun c => c = ' ') with
  | '-' :: rest => (parseNatPart rest).map (fun p => -(p.1 : ℤ))
  | '+' :: rest => (parseNatPart rest).map (fun p => (p.1 : ℤ))
  | l => (parseNatPart l).map (fun p => (p.1 : ℤ))

/-- Integer-and-fraction part of `parseFloat`: digits, optional point,
digits; fails when no digit was consumed at all. -/
def parseFloatMag (l : List Char) : Option JNum :=
  let ip := takeDigits l
  match ip.2 with
  | '.' :: rest =>
    let fp := takeDigits rest
    if ip.1 = [] ∧ fp.1 = [] then none
    else some ⟨(digitsVal (ip.1 ++ fp.1) : ℤ), fp.1.length⟩
  | _ => if ip.1 = [] then none else some ⟨(digitsVal ip.1 : ℤ), 0⟩

/-- JavaScript `parseFloat` on plain decimal literals (exponent notation is
not modelled; the embedded code only parses attribute values such as
`"0.25"`).  `none` = NaN. -/
def jsParseFloat (s : String) : Option JNum :=
  match s.data.dropWhile (fun c => c = ' ') with
  | '-' :: rest => (parseFloatMag rest).map (fun q => ⟨-q.mant, q.exp⟩)
  | '+' :: rest => parseFloatMag rest
  | l => parseFloatMag l

/-! ## JavaScript value model -/

mutual
/-- A JavaScript value as produced by the `fast-xml-parser` output tree. -/
inductive JValue where
  | vstr : String → JValue
  | vnum : JNum → JValue
  | vbool : Bool → JValue
  | varr : JList → JValue
  | vobj : JEntries → JValue
/-- A JavaScript array of values. -/
inductive JList where
  | jnil : JList
  | jcons : JValue → JList → JList
/-- The own-properties of a JavaScript object, in insertion order
(JavaScript objects have unique keys; `Object.entries` iterates in this
order). -/
inductive JEntries where
  | enil : JEntries
  | econs : String → JValue → JEntries → JEntries
end

/-- First entry with the given key, as JavaScript property lookup. -/
def lookupE (key : String) : JEntries → Option JValue
  | .enil => none
  | .econs k v rest => if k = key then some v else lookupE key rest

/-- Property access `v[key]`; `none` models `undefined` (primitive receivers
have none of the properties the embedded code reads). -/
def jsGet (v : JValue) (key : String) : Option JValue :=
  match v with
  | .vobj kvs => lookupE key kvs
  | _ => none

/-- JavaScript truthiness of a value. -/
def jsTruthy : JValue → Bool
  | .vstr s => s ≠ ""
  | .vnum q => q.mant ≠ 0
  | .vbool b => b
  | .varr _ => true
  | .vobj _ => true

mutual
/-- JavaScript string conversion of a value. -/
def jsToString : JValue → String
  | .vstr s => s
  | .vnum q => jsNumToString q
  | .vbool b => cond b "true" "false"
  | .varr xs => jsToStringList xs
  | .vobj _ => "[object Object]"
/-- Array `toString`: elements joined by commas. -/
def jsToStringList : JList → String
  | .jnil => ""
  | .jcons x .jnil => jsToString x
  | .jcons x xs => jsToString x ++ "," ++ jsToStringList xs
end

/-! ## String helpers over the character list -/

/-- ASCII lower-casing of one character. -/
def asciiLower (c : Char) : Char :=
  if 'A' ≤ c ∧ c ≤ 'Z' then Char.ofNat (c.toNat + 32) else c

/-- JavaScript `toLowerCase` (ASCII range, which covers all tag names the
converter tests). -/
def jsToLower (s : String) : String := String.mk (s.data.map asciiLower)

/-- Boolean prefix test on character lists. -/
def isPre : List Char → List Char → Bool
  | [], _ => true
  | _ :: _, [] => false
  | p :: ps, c :: cs => p = c && isPre ps cs

/-- JavaScript `String.prototype.startsWith`. -/
def jsStartsWith (s pre : String) : Bool := isPre pre.data s.data

/-- JavaScript `String.prototype.endsWith`: suffix test via the reversed
lists. -/
def jsEndsWith (s suf : String) : Bool := isPre suf.data.reverse s.data.reverse

/-- Boolean substring scan: does `sub` occur in the list? -/
def includesData (sub : List Char) : List Char → Bool
  | [] => isPre sub []
  | c :: cs => isPre sub (c :: cs) || includesData sub cs

/-- JavaScript `String.prototype.includes`. -/
def jsIncludes (s sub : String) : Bool := includesData sub.data s.data

/-- JavaScript `a || b` on strings: `a` when nonempty, else `b`. -/
def jsOrStr (a b : String) : String := if a = "" then b else a

/-- Replace the first occurrence of `pat` by `rep`
(JavaScript `replace` with a string pattern). -/
def replaceOnceData (pat rep : List Char) : List Char → List Char
  | [] => []
  | c :: cs =>
    if isPre pat (c :: cs) then rep ++ (c :: cs).drop pat.length
    else c :: replaceOnceData pat rep cs

/-- String version of `replaceOnceData`. -/
def jsReplaceOnce (s pat rep : String) : String :=
  String.mk (replaceOnceData pat.data rep.data s.data)

/-- The characters after the last `'.'` — `type.split('.').pop()`. -/
def afterLastDot (s : String) : String :=
  String.mk ((s.data.reverse.takeWhile (fun c => c ≠ '.')).reverse)

/-- Strip the Android id resource marker — `replace(/^@\+id\//, '')`. -/
def stripIdMarker (s : String) : String :=
  if isPre ("@+id/").data s.data then String.mk (s.data.drop 5) else s

/-! ## Embedded source: `src/extension.ts` (class `AndroidXMLPreview`)

Definitions keep the source names.  Local `const` bindings of larger
functions are lifted to named definitions so the theorems can speak about
them; each mirrors the cited source lines exactly. -/

/-- `CONTAINER_WIDTH` (line 7). -/
def CONTAINER_WIDTH : ℕ := 360

/-- `CONTAINER_HEIGHT` (line 8). -/
def CONTAINER_HEIGHT : ℕ := 640

/-- `getAttributeValue` (lines 112-116): reads `element["@_android:" + name]`
and falls back to the default only when the property is `undefined`. -/
def getAttributeValue (element : JValue) (name : String) (defaultValue : String) : String :=
  match jsGet element ("@_android:" ++ name) with
  | some value => jsToString value
  | none => defaultValue

/-- `width` binding of `convertVectorToSVG` (line 86). -/
def vectorWidth (vector : JValue) : String :=
  jsReplaceOnce (getAttributeValue vector ("width") ("24dp")) ("dp") ("")

/-- `height` binding of `convertVectorToSVG` (line 87). -/
def vectorHeight (vector : JValue) : String :=
  jsReplaceOnce (getAttributeValue vector ("height") ("24dp")) ("dp") ("")

/-- `viewportWidth` binding of `convertVectorToSVG` (line 88). -/
def vectorViewportWidth (vector : JValue) : String :=
  getAttributeValue vector ("viewportWidth") (vectorWidth vector)

/-- `viewportHeight` binding of `convertVectorToSVG` (line 89). -/
def vectorViewportHeight (vector : JValue) : String :=
  getAttributeValue vector ("viewportHeight") (vectorHeight vector)

/-- `alpha` binding of `convertVectorToSVG` (line 90). -/
def vectorAlpha (vector : JValue) : String :=
  getAttributeValue vector ("alpha") ("1")

/-- Body of the per-path loop of `convertVectorToSVG` (lines 95-100). -/
def pathFragment (alpha : String) (path : JValue) : String :=
  "<path d=\"" ++ getAttributeValue path ("pathData") ("")
    ++ "\" fill=\"" ++ getAttributeValue path ("fillColor") ("#000000")
    ++ "\" fill-opacity=\"" ++ getAttributeValue path ("fillAlpha") alpha ++ "\"/>"

/-- The `pathArray` of `convertVectorToSVG` (lines 93-94): skipped when
`vector.path` is absent or falsy, the array itself when it is an array,
a singleton otherwise. -/
def pathItems (vector : JValue) : JList :=
  match jsGet vector ("path") with
  | none => .jnil
  | some (.varr ps) => ps
  | some x => if jsTruthy x then .jcons x .jnil else .jnil

/-- The `paths +=` accumulation of `convertVectorToSVG` (lines 95-100). -/
def pathsConcat (alpha : String) : JList → String
  | .jnil => ""
  | .jcons p rest => pathFragment alpha p ++ pathsConcat alpha rest

/-- `convertVectorToSVG` (lines 85-110). -/
def convertVectorToSVG (vector : JValue) : String :=
  "<svg xmlns=\"http://www.w3.org/2000/svg\" \n                     width=\"100%\" \n                     height=\"100%\"\n                     viewBox=\"0 0 "
    ++ vectorViewportWidth vector ++ " " ++ vectorViewportHeight vector
    ++ "\"\n                     preserveAspectRatio=\"xMidYMid meet\">\n                    "
    ++ pathsConcat (vectorAlpha vector) (pathItems vector)
    ++ "\n                </svg>"

/-- `convertLayoutDimension` (lines 243-259). -/
def convertLayoutDimension (value : JValue) : String :=
  if !(jsTruthy value) || (match value with | .vstr s => s = "wrap_content" || s = "-2" | _ => false) then
    "auto"
  else if (match value with | .vstr s => s = "match_parent" || s = "-1" || s = "fill_parent" | _ => false) then
    "100%"
  else
    match value with
    | .vstr s =>
      if jsEndsWith s ("dp") then
        (match jsParseInt s with | some i => intStr i | none => "NaN") ++ "px"
      else if jsEndsWith s ("sp") then
        (match jsParseInt s with | some i => intStr i | none => "NaN") ++ "px"
      else "auto"
    | .vnum q => jsNumToString q ++ "px"
    | _ => "auto"

/-- `margin` binding of `getMarginStyle` (line 262). -/
def marginUniform (props : JValue) : String :=
  getAttributeValue props ("layout_margin") ("0")

/-- `marginLeft` binding (lines 263-264). -/
def marginLeftVal (props : JValue) : String :=
  jsOrStr (getAttributeValue props ("layout_marginLeft") (""))
    (jsOrStr (getAttributeValue props ("layout_marginStart") ("")) (marginUniform props))

/-- `marginRight` binding (lines 265-266). -/
def marginRightVal (props : JValue) : String :=
  jsOrStr (getAttributeValue props ("layout_marginRight") (""))
    (jsOrStr (getAttributeValue props ("layout_marginEnd") ("")) (marginUniform props))

/-- `marginTop` binding (line 267). -/
def marginTopVal (props : JValue) : String :=
  jsOrStr (getAttributeValue props ("layout_marginTop") ("")) (marginUniform props)

/-- `marginBottom` binding (line 268). -/
def marginBottomVal (props : JValue) : String :=
  jsOrStr (getAttributeValue props ("layout_marginBottom") ("")) (marginUniform props)

/-- `getMarginStyle` (lines 261-271): top, right, bottom, left. -/
def getMarginStyle (props : JValue) : String :=
  convertLayoutDimension (.vstr (marginTopVal props)) ++ " "
    ++ convertLayoutDimension (.vstr (marginRightVal props)) ++ " "
    ++ convertLayoutDimension (.vstr (marginBottomVal props)) ++ " "
    ++ convertLayoutDimension (.vstr (marginLeftVal props))

/-- `padding` binding of `getPaddingStyle` (line 274). -/
def paddingUniform (props : JValue) : String :=
  getAttributeValue props ("padding") ("8px")

/-- `paddingLeft` binding (lines 275-276). -/
def paddingLeftVal (props : JValue) : String :=
  jsOrStr (getAttributeValue props ("paddingLeft") (""))
    (jsOrStr (getAttributeValue props ("paddingStart") ("")) (paddingUniform props))

/-- `paddingRight` binding (lines 277-278). -/
def paddingRightVal (props : JValue) : String :=
  jsOrStr (getAttributeValue props ("paddingRight") (""))
    (jsOrStr (getAttributeValue props ("paddingEnd") ("")) (paddingUniform props))

/-- `paddingTop` binding (line 279). -/
def paddingTopVal (props : JValue) : String :=
  jsOrStr (getAttributeValue props ("paddingTop") ("")) (paddingUniform props)

/-- `paddingBottom` binding (line 280). -/
def paddingBottomVal (props : JValue) : String :=
  jsOrStr (getAttributeValue props ("paddingBottom") ("")) (paddingUniform props)

/-- `getPaddingStyle` (lines 273-283): top, right, bottom, left. -/
def getPaddingStyle (props : JValue) : String :=
  convertLayoutDimension (.vstr (paddingTopVal props)) ++ " "
    ++ convertLayoutDimension (.vstr (paddingRightVal props)) ++ " "
    ++ convertLayoutDimension (.vstr (paddingBottomVal props)) ++ " "
    ++ convertLayoutDimension (.vstr (paddingLeftVal props))

/-- `ConstraintInfo` (from `xml-types.ts`).  `horizontalBias`/`verticalBias`
are `Option (Option JNum)`: the outer `none` is `undefined`, the inner
`none` is `NaN`. -/
structure ConstraintInfo where
  id : String := ""
  leftToLeft : Option String := none
  leftToRight : Option String := none
  rightToLeft : Option String := none
  rightToRight : Option String := none
  topToTop : Option String := none
  topToBottom : Option String := none
  bottomToTop : Option String := none
  bottomToBottom : Option String := none
  startToStart : Option String := none
  startToEnd : Option String := none
  endToStart : Option String := none
  endToEnd : Option String := none
  horizontalBias : Option (Option JNum) := none
  verticalBias : Option (Option JNum) := none

/-- The `id` binding of `renderLayoutElement` (line 132). -/
def elementId (props : JValue) : String :=
  stripIdMarker (getAttributeValue props ("id") (""))

/-- The `constraints` object literal of `renderLayoutElement`
(lines 139-149). -/
def constraintsOf (props : JValue) : ConstraintInfo :=
  { id := jsOrStr (elementId props) ("")
    leftToLeft := some (jsOrStr (getAttributeValue props ("layout_constraintLeft_toLeftOf") (""))
      (getAttributeValue props ("layout_constraintStart_toStartOf") ("")))
    rightToRight := some (jsOrStr (getAttributeValue props ("layout_constraintRight_toRightOf") (""))
      (getAttributeValue props ("layout_constraintEnd_toEndOf") ("")))
    topToTop := some (getAttributeValue props ("layout_constraintTop_toTopOf") (""))
    bottomToBottom := some (getAttributeValue props ("layout_constraintBottom_toBottomOf") (""))
    horizontalBias := some (jsParseFloat (getAttributeValue props ("layout_constraintHorizontal_bias") ("0.5")))
    verticalBias := some (jsParseFloat (getAttributeValue props ("layout_constraintVertical_bias") ("0.5"))) }

/-- Rendering of a possibly-NaN number into a template literal. -/
def numOptRender (b : Option JNum) : String :=
  match b with
  | some q => jsNumToString q
  | none => "NaN"

/-- The base style template of `calculateConstraintStyle` (lines 198-207). -/
def csBase (width height margin padding : String) : String :=
  "\n            position: absolute;\n            width: " ++ width
    ++ ";\n            height: " ++ height
    ++ ";\n            margin: " ++ margin
    ++ ";\n            padding: " ++ padding
    ++ ";\n            background-color: rgba(255, 255, 255, 0.1);\n            border: 1px solid rgba(255, 255, 255, 0.2);\n            border-radius: 4px;\n        "

/-- The horizontal-centering block appended at lines 213-216. -/
def hCenterBlock (bias : Option JNum) : String :=
  "\n                left: " ++ numOptRender (bias.map (fun q => jsMulNum q ⟨100, 0⟩))
    ++ "%;\n                transform: translateX(-50%);\n            "

/-- The vertical-centering block appended at lines 224-227. -/
def vCenterBlock (bias : Option JNum) : String :=
  "\n                top: " ++ numOptRender (bias.map (fun q => jsMulNum q ⟨100, 0⟩))
    ++ "%;\n                transform: translateY(-50%);\n            "

/-- The global regex replacement `style.replace(/transform:[^;]+;/g, '')`
(line 237): `rmTAux` below scans left to right, removing every leftmost
match of `transform:` followed by one or more non-semicolons and a
semicolon. -/
def PAT : List Char := "transform:".data

/-- Consume up to and past the next `';'`. -/
def seekSemi : List Char → Option (List Char)
  | [] => none
  | c :: cs => if c = ';' then some cs else seekSemi cs

/-- Match `[^;]+;` at the head of the list. -/
def afterColonMatch : List Char → Option (List Char)
  | [] => none
  | c :: cs => if c = ';' then none else seekSemi cs

/-- Match the whole regex `transform:[^;]+;` at the head of the list,
returning the remainder after the match. -/
def takeMatch (l : List Char) : Option (List Char) :=
  if isPre PAT l then afterColonMatch (l.drop 10) else none

/-- Left-to-right scan removing every match of `transform:[^;]+;`. -/
def rmTAux (l : List Char) : List Char :=
  match l with
  | [] => []
  | c :: cs =>
    match h : takeMatch (c :: cs) with
    | some rest => rmTAux rest
    | none => c :: rmTAux cs
termination_by l.length
decreasing_by
  · have hpre : ∀ p l, isPre p l = true → p.length ≤ l.length := by
      intro p
      induction p with
      | nil => intro l _; simp
      | cons a ps ih =>
        intro l h
        cases l with
        | nil => simp [isPre] at h
        | cons c cs =>
          simp only [isPre, Bool.and_eq_true] at h
          have := ih cs h.2
          simp
          omega
    have hseek : ∀ l r, seekSemi l = some r → r.length < l.length := by
      intro l
      induction l with
      | nil => intro r h; simp [seekSemi] at h
      | cons c cs ih =>
        intro r h
        simp only [seekSemi] at h
        split at h
        · cases h; simp
        · have := ih r h; simp; omega
    have hacm : ∀ l r, afterColonMatch l = some r → r.length < l.length := by
      intro l r h
      cases l with
      | nil => simp [afterColonMatch] at h
      | cons c cs =>
        simp only [afterColonMatch] at h
        split at h
        · exact absurd h (by simp)
        · have := hseek cs r h; simp; omega
    have htm : ∀ l r, takeMatch l = some r → r.length < l.length := by
      intro l r h
      simp only [takeMatch] at h
      split at h
      next hp =>
        have h10 : 10 ≤ l.length := hpre PAT l hp
        have h2 := hacm _ _ h
        have h3 : (l.drop 10).length = l.length - 10 := by simp
        omega
      · simp at h
    have := htm _ _ h
    omega
  · simp

/-- String version of the global transform-declaration removal. -/
def removeTransformDecls (s : String) : String := String.mk (rmTAux s.data)

/-- `calculateConstraintStyle` (lines 197-241). -/
def calculateConstraintStyle (constraints : ConstraintInfo)
    (width height margin padding : String) : String :=
  let style0 := csBase width height margin padding
  let horizontalBias := constraints.horizontalBias.getD (some ⟨5, 1⟩)
  let verticalBias := constraints.verticalBias.getD (some ⟨5, 1⟩)
  let style1 :=
    if constraints.leftToLeft = some ("parent") ∧ constraints.rightToRight = some ("parent") then
      style0 ++ hCenterBlock horizontalBias
    else if constraints.leftToLeft = some ("parent") then style0 ++ "left: 0;"
    else if constraints.rightToRight = some ("parent") then style0 ++ "right: 0;"
    else style0
  let style2 :=
    if constraints.topToTop = some ("parent") ∧ constraints.bottomToBottom = some ("parent") then
      style1 ++ vCenterBlock verticalBias
    else if constraints.topToTop = some ("parent") then style1 ++ "top: 0;"
    else if constraints.bottomToBottom = some ("parent") then style1 ++ "bottom: 0;"
    else style1
  if (constraints.leftToLeft = some ("parent") ∧ constraints.rightToRight = some ("parent"))
      ∧ (constraints.topToTop = some ("parent") ∧ constraints.bottomToBottom = some ("parent")) then
    removeTransformDecls style2 ++ "transform: translate(-50%, -50%);"
  else style2

/-- The per-node style of `renderLayoutElement` (lines 133-151). -/
def nodeStyle (props : JValue) : String :=
  calculateConstraintStyle (constraintsOf props)
    (convertLayoutDimension (.vstr (getAttributeValue props ("layout_width") (""))))
    (convertLayoutDimension (.vstr (getAttributeValue props ("layout_height") (""))))
    (getMarginStyle props)
    (getPaddingStyle props)

/-- The `content` selection for the view kind (lines 153-170). -/
def contentFor (type : String) (props : JValue) : String :=
  if jsIncludes type ("TextView") then
    "<div class=\"text-content\" style=\"color: " ++ getAttributeValue props ("textColor") ("#FFFFFF")
      ++ "; font-size: " ++ jsReplaceOnce (getAttributeValue props ("textSize") ("14sp")) ("sp") ("px")
      ++ "; background: " ++ getAttributeValue props ("background") ("transparent")
      ++ ";\">" ++ getAttributeValue props ("text") ("[Text]") ++ "</div>"
  else if jsIncludes type ("Button") || jsIncludes type ("FloatingActionButton") then
    "<div class=\"button-content\">"
      ++ jsOrStr (getAttributeValue props ("contentDescription") (""))
        (jsOrStr (getAttributeValue props ("text") (""))
          (jsOrStr (if getAttributeValue props ("src") ("") ≠ "" then
              "[" ++ getAttributeValue props ("src") ("") ++ "]" else "") ("[Button]")))
      ++ "</div>"
  else if jsIncludes type ("ImageView") || jsIncludes type ("PreviewView") then
    "<div class=\"image-placeholder\">[Image]</div>"
  else ""

/-- Object type test: `typeof v === 'object'` for parser-produced values. -/
def isObjType : JValue → Bool
  | .vobj _ => true
  | .varr _ => true
  | _ => false

mutual
/-- `renderLayoutElement` (lines 129-195).  The unused `viewMap` parameter is
dropped (it is created at line 119, passed through, and never read). -/
def renderLayoutElement (type : String) (props : JValue) : String :=
  let elementName := jsOrStr (afterLastDot type) type
  let id := elementId props
  let style := nodeStyle props
  let content := contentFor type props ++
    (match props with
     | .vobj kvs => childrenContent kvs
     | _ => "")
  let idAttr := if id = "" then "" else "id=\"" ++ id ++ "\""
  let classes := if jsIncludes type ("ConstraintLayout") then "layout-element constraint-layout" else "layout-element"
  let styleOut := if jsIncludes type ("ConstraintLayout") then style ++ "position: relative;" else style
  "\n            <div class=\"" ++ classes ++ "\" style=\"" ++ styleOut ++ "\" " ++ idAttr
    ++ ">\n                <div class=\"element-info\">\n                    <span class=\"element-type\">"
    ++ elementName ++ "</span>\n                    "
    ++ (if id = "" then "" else "<span class=\"element-id\">#" ++ id ++ "</span>")
    ++ "\n                </div>\n                " ++ content ++ "\n            </div>\n        "
termination_by structural props

/-- The child-element loop of `renderLayoutElement` (lines 172-177): for each
entry whose value is an array with an object head and whose key does not
start with the attribute marker, the FIRST array element is rendered. -/
def childrenContent : JEntries → String
  | .enil => ""
  | .econs key value rest =>
    (match value with
     | .varr (.jcons x _) =>
       if isObjType x && !(jsStartsWith key ("@_")) then renderLayoutElement key x else ""
     | _ => "") ++ childrenContent rest
termination_by structural l => l
end

/-- The contribution of one object entry to the child loop (the match inside
`childrenContent`), as a standalone function. -/
def childEntryHtml (k : String) (v : JValue) : String :=
  match v with
  | .varr (.jcons x _) =>
    if isObjType x && !(jsStartsWith k ("@_")) then renderLayoutElement k x else ""
  | _ => ""

/-- `convertLayoutToHtml` (lines 118-127); the `viewMap` it creates is never
read. -/
def convertLayoutToHtml (type : String) (props : JValue) : String :=
  "\n            <div class=\"layout-root\">\n                "
    ++ renderLayoutElement type props
    ++ "\n            </div>\n        "

/-- Fixed text of the layout preview shell before the container width
(`getLayoutPreviewHtml`, lines 285-367). -/
def layoutShellA : String := ""
    ++ "\n"
    ++ "            <!DOCTYPE html>\n"
    ++ "            <html>\n"
    ++ "            <head>\n"
    ++ "                <meta charset=\"UTF-8\">\n"
    ++ "                <meta name=\"viewport\" content=\"width=device-width, initial-scale=1.0\">\n"
    ++ "                <style>\n"
    ++ "                    body \x7b\n"
    ++ "                        margin: 0;\n"
    ++ "                        padding: 20px;\n"
    ++ "                        background-color: #2d2d2d;\n"
    ++ "                        color: #ffffff;\n"
    ++ "                        font-family: system-ui;\n"
    ++ "                        min-height: 100vh;\n"
    ++ "                        display: flex;\n"
    ++ "                        justify-content: center;\n"
    ++ "                    \x7d\n"
    ++ "                    .layout-root \x7b\n"
    ++ "                        width: "

/-- Shell text between container width and height. -/
def layoutShellB : String := ""
    ++ "px;\n"
    ++ "                        height: "

/-- Shell text between container height and the layout content. -/
def layoutShellC : String := ""
    ++ "px;\n"
    ++ "                        background-color: #1e1e1e;\n"
    ++ "                        border: 2px solid #3d3d3d;\n"
    ++ "                        border-radius: 8px;\n"
    ++ "                        padding: 16px;\n"
    ++ "                        position: relative;\n"
    ++ "                        overflow: hidden;\n"
    ++ "                    \x7d\n"
    ++ "                    .layout-element \x7b\n"
    ++ "                        box-sizing: border-box;\n"
    ++ "                    \x7d\n"
    ++ "                    .constraint-layout \x7b\n"
    ++ "                        position: relative !important;\n"
    ++ "                        width: 100% !important;\n"
    ++ "                        height: 100% !important;\n"
    ++ "                    \x7d\n"
    ++ "                    .element-info \x7b\n"
    ++ "                        position: absolute;\n"
    ++ "                        top: 0;\n"
    ++ "                        left: 0;\n"
    ++ "                        font-size: 12px;\n"
    ++ "                        padding: 2px 4px;\n"
    ++ "                        background-color: rgba(0, 0, 0, 0.6);\n"
    ++ "                        border-radius: 2px;\n"
    ++ "                        z-index: 1;\n"
    ++ "                        pointer-events: none;\n"
    ++ "                    \x7d\n"
    ++ "                    .element-type \x7b\n"
    ++ "                        color: #4CAF50;\n"
    ++ "                    \x7d\n"
    ++ "                    .element-id \x7b\n"
    ++ "                        color: #2196F3;\n"
    ++ "                        margin-left: 4px;\n"
    ++ "                    \x7d\n"
    ++ "                    .text-content \x7b\n"
    ++ "                        padding: 8px;\n"
    ++ "                        border-radius: 4px;\n"
    ++ "                        margin-top: 24px;\n"
    ++ "                    \x7d\n"
    ++ "                    .button-content \x7b\n"
    ++ "                        padding: 8px 16px;\n"
    ++ "                        background-color: #4CAF50;\n"
    ++ "                        border-radius: 4px;\n"
    ++ "                        margin-top: 24px;\n"
    ++ "                        display: inline-block;\n"
    ++ "                    \x7d\n"
    ++ "                    .image-placeholder \x7b\n"
    ++ "                        width: 48px;\n"
    ++ "                        height: 48px;\n"
    ++ "                        background-color: rgba(255, 255, 255, 0.1);\n"
    ++ "                        display: flex;\n"
    ++ "                        align-items: center;\n"
    ++ "                        justify-content: center;\n"
    ++ "                        border-radius: 4px;\n"
    ++ "                        margin-top: 24px;\n"
    ++ "                    \x7d\n"
    ++ "                </style>\n"
    ++ "            </head>\n"
    ++ "            <body>\n"
    ++ "                "

/-- Shell text after the layout content. -/
def layoutShellD : String := ""
    ++ "\n"
    ++ "            </body>\n"
    ++ "            </html>"

/-- `getLayoutPreviewHtml` (lines 285-367). -/
def getLayoutPreviewHtml (layoutContent : String) : String :=
  layoutShellA ++ natStr CONTAINER_WIDTH ++ layoutShellB ++ natStr CONTAINER_HEIGHT
    ++ layoutShellC ++ layoutContent ++ layoutShellD


/-- Fixed shell text before the SVG (`getVectorDrawableHtml`,
lines 369-454). -/
def vectorShellA : String := ""
    ++ "\n"
    ++ "            <!DOCTYPE html>\n"
    ++ "            <html>\n"
    ++ "            <head>\n"
    ++ "                <meta charset=\"UTF-8\">\n"
    ++ "                <meta name=\"viewport\" content=\"width=device-width, initial-scale=1.0\">\n"
    ++ "                <style>\n"
    ++ "                    body \x7b\n"
    ++ "                        margin: 0;\n"
    ++ "                        padding: 20px;\n"
    ++ "                        background-color: #2d2d2d;\n"
    ++ "                        display: flex;\n"
    ++ "                        justify-content: center;\n"
    ++ "                        align-items: center;\n"
    ++ "                        min-height: 100vh;\n"
    ++ "                    \x7d\n"
    ++ "                    .preview-container \x7b\n"
    ++ "                        background-color: #1e1e1e;\n"
    ++ "                        padding: 20px;\n"
    ++ "                        border-radius: 8px;\n"
    ++ "                        box-shadow: 0 2px 8px rgba(0,0,0,0.3);\n"
    ++ "                    \x7d\n"
    ++ "                    .svg-container \x7b\n"
    ++ "                        width: 200px;\n"
    ++ "                        height: 200px;\n"
    ++ "                        background-color: #333333;\n"
    ++ "                        display: flex;\n"
    ++ "                        justify-content: center;\n"
    ++ "                        align-items: center;\n"
    ++ "                        border-radius: 4px;\n"
    ++ "                        margin-bottom: 16px;\n"
    ++ "                    \x7d\n"
    ++ "                    .controls \x7b\n"
    ++ "                        display: flex;\n"
    ++ "                        justify-content: center;\n"
    ++ "                        gap: 8px;\n"
    ++ "                    \x7d\n"
    ++ "                    button \x7b\n"
    ++ "                        background: #444444;\n"
    ++ "                        border: none;\n"
    ++ "                        color: white;\n"
    ++ "                        padding: 4px 12px;\n"
    ++ "                        border-radius: 4px;\n"
    ++ "                        cursor: pointer;\n"
    ++ "                    \x7d\n"
    ++ "                    button:hover \x7b\n"
    ++ "                        background: #555555;\n"
    ++ "                    \x7d\n"
    ++ "                    #size-display \x7b\n"
    ++ "                        color: #ffffff;\n"
    ++ "                        font-family: system-ui;\n"
    ++ "                        padding: 4px 8px;\n"
    ++ "                    \x7d\n"
    ++ "                </style>\n"
    ++ "            </head>\n"
    ++ "            <body>\n"
    ++ "                <div class=\"preview-container\">\n"
    ++ "                    <div class=\"svg-container\">\n"
    ++ "                        "

/-- Shell text after the SVG. -/
def vectorShellB : String := ""
    ++ "\n"
    ++ "                    </div>\n"
    ++ "                    <div class=\"controls\">\n"
    ++ "                        <button onclick=\"adjustSize(-20)\">-</button>\n"
    ++ "                        <span id=\"size-display\">200px</span>\n"
    ++ "                        <button onclick=\"adjustSize(20)\">+</button>\n"
    ++ "                    </div>\n"
    ++ "                </div>\n"
    ++ "                <script>\n"
    ++ "                    function adjustSize(delta) \x7b\n"
    ++ "                        const container = document.querySelector(\x27.svg-container\x27);\n"
    ++ "                        const display = document.getElementById(\x27size-display\x27);\n"
    ++ "                        const currentSize = parseInt(container.style.width) || 200;\n"
    ++ "                        const newSize = Math.max(100, Math.min(400, currentSize + delta));\n"
    ++ "                        \n"
    ++ "                        container.style.width = newSize + \x27px\x27;\n"
    ++ "                        container.style.height = newSize + \x27px\x27;\n"
    ++ "                        display.textContent = newSize + \x27px\x27;\n"
    ++ "                    \x7d\n"
    ++ "\n"
    ++ "                    // Set initial size\n"
    ++ "                    document.querySelector(\x27.svg-container\x27).style.width = \x27200px\x27;\n"
    ++ "                    document.querySelector(\x27.svg-container\x27).style.height = \x27200px\x27;\n"
    ++ "                </script>\n"
    ++ "            </body>\n"
    ++ "            </html>"

/-- `getVectorDrawableHtml` (lines 369-454). -/
def getVectorDrawableHtml (svg : String) : String :=
  vectorShellA ++ svg ++ vectorShellB


/-- Fixed shell text before the message (`getErrorHtml`, lines 456-489). -/
def errorShellA : String := ""
    ++ "\n"
    ++ "            <!DOCTYPE html>\n"
    ++ "            <html>\n"
    ++ "            <head>\n"
    ++ "                <meta charset=\"UTF-8\">\n"
    ++ "                <style>\n"
    ++ "                    body \x7b\n"
    ++ "                        margin: 0;\n"
    ++ "                        padding: 20px;\n"
    ++ "                        background-color: #2d2d2d;\n"
    ++ "                        color: #e74c3c;\n"
    ++ "                        font-family: system-ui;\n"
    ++ "                        display: flex;\n"
    ++ "                        justify-content: center;\n"
    ++ "                        align-items: center;\n"
    ++ "                        min-height: 100vh;\n"
    ++ "                    \x7d\n"
    ++ "                    .error-container \x7b\n"
    ++ "                        background-color: #1e1e1e;\n"
    ++ "                        padding: 20px;\n"
    ++ "                        border-radius: 8px;\n"
    ++ "                        box-shadow: 0 2px 8px rgba(0,0,0,0.3);\n"
    ++ "                        text-align: center;\n"
    ++ "                    \x7d\n"
    ++ "                </style>\n"
    ++ "            </head>\n"
    ++ "            <body>\n"
    ++ "                <div class=\"error-container\">\n"
    ++ "                    <h3>"

/-- Shell text after the message. -/
def errorShellB : String := ""
    ++ "</h3>\n"
    ++ "                </div>\n"
    ++ "            </body>\n"
    ++ "            </html>"

/-- `getErrorHtml` (lines 456-489). -/
def getErrorHtml (message : String) : String :=
  errorShellA ++ message ++ errorShellB

/-! ## Top-level render entry point (`updatePreview`, lines 38-83)

The file read and the `panel.webview.html` assignments are host-API
boundary effects; the pure content is: parse, branch on `parsed.vector`,
find a layout-like root, render — with every thrown error caught at the
top and turned into the error document. -/

/-- The layout-likeness test on one root key (lines 62-70). -/
def layoutLikeKey (key : String) : Bool :=
  let normalizedKey := jsToLower key
  jsIncludes normalizedKey ("layout") ||
    jsIncludes normalizedKey ("constraint") ||
    jsIncludes normalizedKey ("linear") ||
    jsIncludes normalizedKey ("relative") ||
    jsIncludes normalizedKey ("frame") ||
    jsIncludes normalizedKey ("coordinator")

/-- `Object.entries(parsed).find(...)` (lines 62-70): the first entry whose
key passes the layout-likeness test. -/
def findRootElement : JEntries → Option (String × JValue)
  | .enil => none
  | .econs k v rest => if layoutLikeKey k then some (k, v) else findRootElement rest

/-- `rootProps[0]` (line 77): JavaScript indexing with `0` on the found
value.  `none` models `undefined` (which makes the subsequent attribute
read throw a `TypeError`). -/
def indexZero : JValue → Option JValue
  | .varr (.jcons x _) => some x
  | .varr .jnil => none
  | .vstr s => match s.data with
    | [] => none
    | c :: _ => some (.vstr (String.mk [c]))
  | .vobj kvs => lookupE ("0") kvs
  | _ => none

/-- The entries of the parsed document (`Object.entries(parsed)`). -/
def entriesOf : JValue → JEntries
  | .vobj kvs => kvs
  | _ => .enil

/-- The try-block body of `updatePreview` (lines 43-78), with thrown errors
as `Except.error`: the `vector` branch, the root search (throwing
`'No valid root element found'` when it fails, line 73), and the
`TypeError` thrown by reading an attribute of `undefined` when the found
root value has no element at index `0`. -/
def convertParsed (parsed : JValue) : Except String String :=
  if (match jsGet parsed ("vector") with | some v => jsTruthy v | none => false) then
    match jsGet parsed ("vector") with
    | some vec => .ok (getVectorDrawableHtml (convertVectorToSVG vec))
    | none => .error ("unreachable")
  else
    match findRootElement (entriesOf parsed) with
    | none => .error ("No valid root element found")
    | some rootElement =>
      match indexZero rootElement.2 with
      | some node => .ok (getLayoutPreviewHtml (convertLayoutToHtml rootElement.1 node))
      | none => .error ("Cannot read properties of undefined (reading \x27@_android:id\x27)")

/-- `updatePreview` (lines 38-83): the catch handler (lines 79-82) turns any
thrown error into the error document; nothing is re-thrown. -/
def updatePreviewHtml (parsed : JValue) : String :=
  match convertParsed parsed with
  | .ok html => html
  | .error e => getErrorHtml ("Failed to process XML: " ++ e)

/-! ## Parser attribute naming (front end of the pipeline)

Modelled from the spec: the XML parsing front end itself (`fast-xml-parser`,
a package dependency, configured at lines 45-54) is not part of `src/`; §4.1
of the spec describes its contract — "attribute-name prefix" and "whether
XML namespace prefixes are stripped".  With `attributeNamePrefix: '@_'` the
parsed key of an attribute is `"@_"` followed by the attribute name, and
with `removeNSPrefix: true` (the layout configuration, line 48 — chosen
whenever the text contains neither `android:viewportWidth` nor
`android:pathData`) the namespace part up to and including the first `:` is
removed first.  `xml-types.ts` corroborates this: it declares layout keys
as `'@_layout_width'` etc. (no namespace) and vector keys as
`'@_android:width'` etc. -/
def parsedAttrKey (removeNS : Bool) (rawName : String) : String :=
  let localName :=
    if removeNS ∧ rawName.data.any (fun c => c = ':') then
      String.mk ((rawName.data.reverse.takeWhile (fun c => c ≠ ':')).reverse)
    else rawName
  "@_" ++ localName

/-! ## Embedded source: the `part_001` iteration of the converter

Only its vector-drawable path is needed (claim C9).  Its parser uses
`attributeNamePrefix: ''`, so attributes appear under their plain local
names. -/

namespace V1

/-- Property of a parsed node under the empty attribute prefix. -/
def propOr (v : JValue) (key : String) (defaultVal : String) : String :=
  match jsGet v key with
  | some x => if jsTruthy x then jsToString x else defaultVal
  | none => defaultVal

/-- Interpolation of a possibly-undefined property (`${path.pathData}`). -/
def propStr (v : JValue) (key : String) : String :=
  match jsGet v key with
  | some x => jsToString x
  | none => "undefined"

/-- `convertVectorPaths` (part_001 lines 116-122): each path is emitted with
its data and fill color only — no transform of any kind. -/
def convertVectorPaths : JList → List String
  | .jnil => []
  | .jcons p rest =>
    ("<path d=\"" ++ propStr p ("pathData") ++ "\" fill=\"" ++ propOr p ("fillColor") ("#FFFFFF") ++ "\" />")
      :: convertVectorPaths rest

/-- `paths.map(...).join('\n')`. -/
def joinNl : List String → String
  | [] => ""
  | [s] => s
  | s :: rest => s ++ "\n" ++ joinNl rest

/-- The `pathArray` normalization (part_001 lines 93, 99). -/
def asArray : JValue → JList
  | .varr ps => ps
  | x => .jcons x .jnil

/-- `convertVectorToSVG` (part_001 lines 81-114): renders top-level paths
and the paths directly inside `vector.group`, all through
`convertVectorPaths`; no `transform` attribute is ever produced. -/
def convertVectorToSVG (vectorDrawable : JValue) : String :=
  match jsGet vectorDrawable ("vector") with
  | none => "<svg><text fill=\"red\">Invalid vector drawable format</text></svg>"
  | some vector =>
    if !(jsTruthy vector) then "<svg><text fill=\"red\">Invalid vector drawable format</text></svg>"
    else
      let viewportWidth := propOr vector ("viewportWidth") ("24")
      let viewportHeight := propOr vector ("viewportHeight") ("24")
      let topPaths :=
        match jsGet vector ("path") with
        | some p => if jsTruthy p then joinNl (convertVectorPaths (asArray p)) else ""
        | none => ""
      let groupPaths :=
        match jsGet vector ("group") with
        | some g =>
          if jsTruthy g then
            match jsGet g ("path") with
            | some gp => if jsTruthy gp then joinNl (convertVectorPaths (asArray gp)) else ""
            | none => ""
          else ""
        | none => ""
      "<svg xmlns=\"http://www.w3.org/2000/svg\" \n                     width=\"100%\" \n                     height=\"100%\"\n                     viewBox=\"0 0 "
        ++ viewportWidth ++ " " ++ viewportHeight
        ++ "\"\n                     preserveAspectRatio=\"xMidYMid meet\">\n                    "
        ++ (topPaths ++ groupPaths)
        ++ "\n                </svg>"

end V1

/-! ## Concrete scenario values and support definitions used by the claims -/

/-- A node that sets both the side-specific and the uniform spacing
attributes on every side (and directional attributes too). -/
def spacingProps : JValue := .vobj (
  .econs "@_android:layout_margin" (.vstr "1dp") (
  .econs "@_android:layout_marginLeft" (.vstr "2dp") (
  .econs "@_android:layout_marginStart" (.vstr "3dp") (
  .econs "@_android:layout_marginRight" (.vstr "4dp") (
  .econs "@_android:layout_marginEnd" (.vstr "5dp") (
  .econs "@_android:layout_marginTop" (.vstr "6dp") (
  .econs "@_android:layout_marginBottom" (.vstr "7dp") (
  .econs "@_android:padding" (.vstr "1dp") (
  .econs "@_android:paddingStart" (.vstr "8dp") (
  .econs "@_android:paddingEnd" (.vstr "9dp") (
  .econs "@_android:paddingTop" (.vstr "10dp") (
  .econs "@_android:paddingBottom" (.vstr "11dp") .enil))))))))))))

/-- A vector node carrying `android:alpha="0.5"`. -/
def vecAlphaHalf : JValue := .vobj (.econs "@_android:alpha" (.vnum ⟨5, 1⟩) .enil)

/-- A path node with path data only. -/
def pathPlain : JValue := .vobj (.econs "@_android:pathData" (.vstr "M0 0L24 24") .enil)

/-- A path node with its own `fillAlpha`. -/
def pathOwnAlpha : JValue := .vobj (.econs "@_android:fillAlpha" (.vnum ⟨3, 1⟩) .enil)

/-- A vector drawable declaring only `android:width="48px"` and
`android:height="48px"` (a unit the converter does not strip). -/
def vecPx48 : JValue := .vobj (
  .econs "@_android:width" (.vstr "48px") (
  .econs "@_android:height" (.vstr "48px") .enil))

/-- A vector drawable declaring only `android:width="48dp"` and
`android:height="48dp"` (end-to-end scenario B). -/
def vecDp48 : JValue := .vobj (
  .econs "@_android:width" (.vstr "48dp") (
  .econs "@_android:height" (.vstr "48dp") .enil))

/-- Concatenation of entry lists. -/
def eAppend : JEntries → JEntries → JEntries
  | .enil, e2 => e2
  | .econs k v rest, e2 => .econs k v (eAppend rest e2)

/-- A vector drawable whose only content is a `group` wrapping one path. -/
def vecWithGroup : JValue := .vobj (
  .econs "@_android:width" (.vstr "24dp") (
  .econs "group" (.varr (.jcons (.vobj (
    .econs "path" (.varr (.jcons (.vobj (
      .econs "@_android:pathData" (.vstr "M0 0L24 24") .enil)) .jnil)) .enil)) .jnil)) .enil))

/-- The `part_001` sample document: a `vector` with one grouped path. -/
def v1GroupDoc : JValue := .vobj (.econs "vector" (.vobj (
  .econs "group" (.vobj (.econs "path" (.varr (.jcons
    (.vobj (.econs "pathData" (.vstr "M0 0L10 10") .enil)) .jnil)) .enil)) .enil)) .enil)

/-- No key of the entry list passes the layout-likeness test. -/
def noLayoutLikeKeys : JEntries → Bool
  | .enil => true
  | .econs k _ rest => !layoutLikeKey k && noLayoutLikeKeys rest

/-- The end-to-end scenario E document: root tag `SomeRandomViewGroup`,
no layout-like substring, no `vector` root. -/
def parsedScenarioE : JValue := .vobj (
  .econs "?xml" (.varr (.jcons (.vobj .enil) .jnil)) (
  .econs "SomeRandomViewGroup" (.varr (.jcons (.vobj .enil) .jnil)) .enil))

/-- Single-motive induction principle for `JEntries` (the `induction`
tactic cannot use the mutual recursor directly). -/
def JEntries.indOn {motive : JEntries → Prop} (e : JEntries) (h0 : motive .enil)
    (h1 : ∀ k v rest, motive rest → motive (.econs k v rest)) : motive e :=
  match e with
  | .enil => h0
  | .econs k v rest => h1 k v rest (JEntries.indOn rest h0 h1)

/-- A `TextView` child with text `First`. -/
def kidFirst : JValue := .vobj (.econs "@_android:text" (.vstr "First") .enil)

/-- A `TextView` child with text `Second`. -/
def kidSecond : JValue := .vobj (.econs "@_android:text" (.vstr "Second") .enil)

/-- A container whose `TextView` entry is an array of two sibling nodes. -/
def twoKidsProps : JValue :=
  .vobj (.econs "TextView" (.varr (.jcons kidFirst (.jcons kidSecond .jnil))) .enil)

/-- The scenario-D node as the layout parser configuration produces it:
`removeNSPrefix: true` strips the namespace, so the constraint attributes
land under `@_layout_...` keys (`parsedAttrKey true`), and
`parseAttributeValue: true` turns `"0.25"` into the number `0.25`. -/
def childScenD : JValue := .vobj (
  .econs "@_layout_width" (.vstr "wrap_content") (
  .econs "@_layout_height" (.vstr "wrap_content") (
  .econs "@_layout_constraintLeft_toLeftOf" (.vstr "parent") (
  .econs "@_layout_constraintRight_toRightOf" (.vstr "parent") (
  .econs "@_layout_constraintHorizontal_bias" (.vnum ⟨25, 2⟩) (
  .econs "@_text" (.vstr "Hi") .enil))))))

/-- The scenario-D root: a ConstraintLayout holding the biased child. -/
def rootScenD : JValue := .vobj (
  .econs "@_layout_width" (.vstr "match_parent") (
  .econs "@_layout_height" (.vstr "match_parent") (
  .econs "TextView" (.varr (.jcons childScenD .jnil)) .enil)))

/-- The parsed scenario-D document. -/
def parsedScenD : JValue := .vobj (
  .econs "?xml" (.varr (.jcons (.vobj .enil) .jnil)) (
  .econs "androidx.constraintlayout.widget.ConstraintLayout" (.varr (.jcons rootScenD .jnil)) .enil))

/-- The same node with the key shape `getAttributeValue` actually reads
(`@_android:`-prefixed), which the layout parser configuration never
produces. -/
def childAndroidKeys : JValue := .vobj (
  .econs "@_android:layout_width" (.vstr "wrap_content") (
  .econs "@_android:layout_height" (.vstr "wrap_content") (
  .econs "@_android:layout_constraintLeft_toLeftOf" (.vstr "parent") (
  .econs "@_android:layout_constraintRight_toRightOf" (.vstr "parent") (
  .econs "@_android:layout_constraintHorizontal_bias" (.vnum ⟨25, 2⟩) (
  .econs "@_text" (.vstr "Hi") .enil))))))

/-- The characters that can occur in an interpolated style value
(dimension results, margin/padding quadruples, rendered bias numbers). -/
def SAFE : List Char :=
  ['a', 'u', 't', 'o', '%', 'p', 'x', 'N', '-', '.', ' ',
   '0', '1', '2', '3', '4', '5', '6', '7', '8', '9']

/-- All characters of the string are from the safe alphabet. -/
def safeChars (s : String) : Prop := ∀ c ∈ s.data, c ∈ SAFE

/-- Alphabet covering every character that can occur in the transform-free
part of a fully-centered constraint style: the safe value alphabet plus the
characters of the literal CSS fragments.  `X` and `Y` are not in it. -/
def EXTC : List Char :=
  SAFE ++ ("\nbcdefghijklmnoqrsvwz;:,()").data

/-- A node anchored to `parent` on all four sides, keyed the way
`fast-xml-parser` keys namespaced attributes for this extension's
`getAttributeValue`. -/
def c8props : JValue :=
  .vobj (.econs ("@_android:layout_constraintLeft_toLeftOf") (.vstr ("parent"))
    (.econs ("@_android:layout_constraintRight_toRightOf") (.vstr ("parent"))
      (.econs ("@_android:layout_constraintTop_toTopOf") (.vstr ("parent"))
        (.econs ("@_android:layout_constraintBottom_toBottomOf") (.vstr ("parent")) .enil))))

/-! ## Supporting lemmas -/

theorem isPre_iff : ∀ p l : List Char, isPre p l = true ↔ p <+: l := by
  intro p
  induction p with
  | nil => intro l; simp [isPre]
  | cons a ps ih =>
    intro l
    cases l with
    | nil => simp [isPre]
    | cons c cs =>
      simp only [isPre, Bool.and_eq_true, decide_eq_true_eq, List.cons_prefix_cons, ih]

theorem includesData_iff : ∀ sub l : List Char, includesData sub l = true ↔ sub <:+: l := by
  intro sub l
  induction l with
  | nil =>
    simp only [includesData, isPre_iff]
    constructor
    · exact fun h => h.isInfix
    · intro h
      have : sub = [] := List.eq_nil_of_infix_nil h
      simp [this]
  | cons c cs ih =>
    simp only [includesData, Bool.or_eq_true, isPre_iff, ih, List.infix_cons_iff]

theorem jsIncludes_iff (s sub : String) : jsIncludes s sub = true ↔ sub.data <:+: s.data := by
  simp [jsIncludes, includesData_iff]

theorem str_ext {a b : String} (h : a.data = b.data) : a = b := congrArg String.mk h

theorem digitVal_digitChar : ∀ d : ℕ, d < 10 → digitVal (digitChar d) = some d := by
  decide

theorem digitChar_ne_space : ∀ d : ℕ, d < 10 → ¬ digitChar d = ' ' := by decide

theorem digitChar_ne : ∀ d : ℕ, d < 10 →
    digitChar d ≠ '-' ∧ digitChar d ≠ '+' ∧ digitChar d ≠ ' ' := by decide

/-- `takeDigits` consumes exactly a leading digit block. -/
theorem takeDigits_digits : ∀ ds : List ℕ, (∀ d ∈ ds, d < 10) →
    ∀ rest : List Char, (∀ c, rest.head? = some c → digitVal c = none) →
    takeDigits (ds.map digitChar ++ rest) = (ds, rest) := by
  intro ds
  induction ds with
  | nil =>
    intro _ rest hrest
    cases rest with
    | nil => rfl
    | cons c cs =>
      have := hrest c rfl
      simp only [List.map_nil, List.nil_append, takeDigits, this]
  | cons d ds ih =>
    intro hlt rest hrest
    have hd : d < 10 := hlt d (by simp)
    have hds : ∀ x ∈ ds, x < 10 := fun x hx => hlt x (by simp [hx])
    have hih := ih hds rest hrest
    simp only [List.map_cons, List.cons_append, takeDigits,
      digitVal_digitChar d hd]
    rw [show (List.map digitChar ds).append rest = List.map digitChar ds ++ rest from rfl, hih]

theorem jsParseInt_not_sign (c : Char) (cs : List Char)
    (h1 : c ≠ '-') (h2 : c ≠ '+') (h3 : c ≠ ' ') :
    jsParseInt (String.mk (c :: cs)) = (parseNatPart (c :: cs)).map (fun p => (p.1 : ℤ)) := by
  have hdw : (c :: cs).dropWhile (fun x => x = ' ') = c :: cs := by
    simp [List.dropWhile, h3]
  simp only [jsParseInt]
  rw [show ((c :: cs).dropWhile fun c => c = ' ') = c :: cs from hdw]
  split
  next rest heq => exact absurd (List.cons.inj heq).1 h1
  next rest heq => exact absurd (List.cons.inj heq).1 h2
  next => rfl

/-- The suffix-stripping branch of `convertLayoutDimension` for digit strings
with a `dp` or `sp` unit. -/
theorem convertLayoutDimension_unit (ds : List ℕ) (unit : List Char)
    (hne : ds ≠ []) (hlt : ∀ d ∈ ds, d < 10)
    (hunit : unit = ['d', 'p'] ∨ unit = ['s', 'p']) :
    convertLayoutDimension (.vstr (String.mk (ds.map digitChar ++ unit)))
      = intStr ((digitsVal ds : ℤ)) ++ "px" := by
  obtain ⟨d₀, ds', rfl⟩ : ∃ d₀ ds', ds = d₀ :: ds' := by
    cases ds with
    | nil => exact absurd rfl hne
    | cons a b => exact ⟨a, b, rfl⟩
  have hd₀ : d₀ < 10 := hlt d₀ (by simp)
  set s : String := String.mk ((d₀ :: ds').map digitChar ++ unit) with hs
  have hdata : s.data = digitChar d₀ :: (ds'.map digitChar ++ unit) := by simp [hs]
  have hlastu : unit.getLast? = some 'p' := by rcases hunit with rfl | rfl <;> rfl
  have hlast : s.data.getLast? = some 'p' := by
    rw [hdata]
    have hu : unit ≠ [] := by rcases hunit with rfl | rfl <;> simp
    rw [show digitChar d₀ :: (ds'.map digitChar ++ unit)
        = (digitChar d₀ :: ds'.map digitChar) ++ unit by simp]
    rw [List.getLast?_append_of_ne_nil _ hu, hlastu]
  have hlit : ∀ t : String, t.data.getLast? ≠ some 'p' → s ≠ t := by
    intro t hlt' he
    rw [he] at hlast
    exact hlt' hlast
  have hne1 : s ≠ "wrap_content" := hlit _ (by decide)
  have hne2 : s ≠ "-2" := hlit _ (by decide)
  have hne3 : s ≠ "match_parent" := hlit _ (by decide)
  have hne4 : s ≠ "-1" := hlit _ (by decide)
  have hne5 : s ≠ "fill_parent" := hlit _ (by decide)
  have htruthy : jsTruthy (.vstr s) = true := by
    simp only [jsTruthy, ne_eq, decide_eq_true_eq]
    intro he
    have : s.data = [] := by rw [he]
    rw [hdata] at this
    simp at this
  have hparse : jsParseInt s = some ((digitsVal (d₀ :: ds') : ℤ)) := by
    have hrest : ∀ c, unit.head? = some c → digitVal c = none := by
      rcases hunit with rfl | rfl
      · intro c hc
        rw [show c = 'd' from (Option.some.inj hc).symm]
        decide
      · intro c hc
        rw [show c = 's' from (Option.some.inj hc).symm]
        decide
    have hsign := jsParseInt_not_sign (digitChar d₀) (ds'.map digitChar ++ unit)
      (digitChar_ne d₀ hd₀).1 (digitChar_ne d₀ hd₀).2.1 (digitChar_ne d₀ hd₀).2.2
    rw [show String.mk (digitChar d₀ :: (ds'.map digitChar ++ unit)) = s by rw [hs]; simp] at hsign
    rw [hsign]
    have htd : takeDigits ((d₀ :: ds').map digitChar ++ unit) = (d₀ :: ds', unit) :=
      takeDigits_digits _ hlt unit hrest
    rw [show digitChar d₀ :: (ds'.map digitChar ++ unit) = (d₀ :: ds').map digitChar ++ unit by simp]
    rw [parseNatPart, htd]
    rfl
  have hrevs : s.data.reverse = unit.reverse ++ ((d₀ :: ds').map digitChar).reverse := by
    rw [hs]
    rw [show (String.mk ((d₀ :: ds').map digitChar ++ unit)).data
        = (d₀ :: ds').map digitChar ++ unit from rfl]
    exact List.reverse_append _ _
  rcases hunit with rfl | rfl
  · have hends : jsEndsWith s ("dp") = true := by
      simp only [jsEndsWith, hrevs]
      exact (isPre_iff _ _).mpr (List.prefix_append _ _)
    simp only [convertLayoutDimension, htruthy, Bool.not_true, Bool.false_or,
      decide_eq_false hne1, decide_eq_false hne2, decide_eq_false hne3,
      decide_eq_false hne4, decide_eq_false hne5, Bool.or_self, Bool.or_false,
      if_false, hends, if_true, hparse]
    simp
  · have hends1 : jsEndsWith s ("dp") = false := by
      simp only [jsEndsWith, hrevs]
      simp [isPre]
    have hends2 : jsEndsWith s ("sp") = true := by
      simp only [jsEndsWith, hrevs]
      exact (isPre_iff _ _).mpr (List.prefix_append _ _)
    simp only [convertLayoutDimension, htruthy, Bool.not_true, Bool.false_or,
      decide_eq_false hne1, decide_eq_false hne2, decide_eq_false hne3,
      decide_eq_false hne4, decide_eq_false hne5, Bool.or_self, Bool.or_false,
      if_false, hends1, hends2, if_true, hparse]
    simp

/-! ## Claim C3: dimension resolution -/

/-- C3 counterexample: the claim says the value-typed numbers `-2` and `-1`
resolve like their string sentinels, but `convertLayoutDimension` compares
with `===` against the strings only, and a number falls through to the
final branch, rendering `"-2px"` / `"-1px"` instead of `auto` / `100%`. -/
theorem c3_counterexample :
    convertLayoutDimension (.vnum ⟨-2, 0⟩) = "-2px"
      ∧ convertLayoutDimension (.vnum ⟨-2, 0⟩) ≠ "auto"
      ∧ convertLayoutDimension (.vnum ⟨-1, 0⟩) = "-1px"
      ∧ convertLayoutDimension (.vnum ⟨-1, 0⟩) ≠ "100%" :=
  ⟨by decide, by decide, by decide, by decide⟩

/-- C3 (amended): the string inputs `wrap_content`/`"-2"` resolve to `auto`
(size to content), the strings `match_parent`/`fill_parent`/`"-1"` resolve
to `100%` (fill available space), a digit string with a `dp` or `sp` suffix
is stripped to its integer pixel value, and an absent attribute resolves to
`auto`; the value-typed numbers `-2`/`-1` however render as `"-2px"`/`"-1px"`
(in the render pipeline the resolver is only ever fed strings, since the
attribute accessor stringifies every value). -/
theorem c3_amended :
    (convertLayoutDimension (.vstr ("wrap_content")) = "auto"
        ∧ convertLayoutDimension (.vstr ("-2")) = "auto")
      ∧ (convertLayoutDimension (.vstr ("match_parent")) = "100%"
        ∧ convertLayoutDimension (.vstr ("fill_parent")) = "100%"
        ∧ convertLayoutDimension (.vstr ("-1")) = "100%")
      ∧ (convertLayoutDimension (.vnum ⟨-2, 0⟩) = "-2px"
        ∧ convertLayoutDimension (.vnum ⟨-1, 0⟩) = "-1px")
      ∧ (∀ ds : List ℕ, ds ≠ [] → (∀ d ∈ ds, d < 10) →
          convertLayoutDimension (.vstr (String.mk (ds.map digitChar ++ ['d', 'p'])))
              = intStr ((digitsVal ds : ℤ)) ++ "px"
            ∧ convertLayoutDimension (.vstr (String.mk (ds.map digitChar ++ ['s', 'p'])))
              = intStr ((digitsVal ds : ℤ)) ++ "px")
      ∧ (∀ props : JValue, jsGet props ("@_android:layout_width") = none →
          convertLayoutDimension (.vstr (getAttributeValue props ("layout_width") (""))) = "auto") := by
  refine ⟨⟨by decide, by decide⟩, ⟨by decide, by decide, by decide⟩, ⟨by decide, by decide⟩,
    ?_, ?_⟩
  · intro ds hne hlt
    exact ⟨convertLayoutDimension_unit ds ['d', 'p'] hne hlt (Or.inl rfl),
      convertLayoutDimension_unit ds ['s', 'p'] hne hlt (Or.inr rfl)⟩
  · intro props hget
    have hkey : ("@_android:" ++ "layout_width" : String) = "@_android:layout_width" := rfl
    simp only [getAttributeValue, hkey, hget]
    decide

/-- C3 witness: instances of the amended claim at `"16dp"` and an
attribute-free node. -/
theorem c3_witness :
    convertLayoutDimension (.vstr (String.mk ([1, 6].map digitChar ++ ['d', 'p'])))
        = intStr ((digitsVal [1, 6] : ℤ)) ++ "px"
      ∧ convertLayoutDimension (.vstr (getAttributeValue (.vobj .enil) ("layout_width") (""))) = "auto" :=
  ⟨(c3_amended.2.2.2.1 [1, 6] (by decide) (by decide)).1,
    c3_amended.2.2.2.2 (.vobj .enil) rfl⟩

/-! ## Claim C5: margin and padding defaults -/

theorem getAttributeValue_eq_none {props : JValue} {key : String} (name d : String)
    (hk : "@_android:" ++ name = key) (h : jsGet props key = none) :
    getAttributeValue props name d = d := by
  simp only [getAttributeValue, hk, h]

theorem getAttributeValue_eq_some {props : JValue} {key : String} {v : JValue} (name d : String)
    (hk : "@_android:" ++ name = key) (h : jsGet props key = some v) :
    getAttributeValue props name d = jsToString v := by
  simp only [getAttributeValue, hk, h]

/-- C5 is a code bug: the code's own defaults are `'0'` for margin and
`'8px'` for padding (lines 262 and 274, matching the spec), but
`convertLayoutDimension` recognizes only `dp`/`sp` suffixes and maps any
other non-sentinel string — including `"0"` and `"8px"` — to `auto`, so a
node with no margin attributes gets `margin: auto auto auto auto` (not 0)
and a node with no padding attributes gets `padding: auto auto auto auto`
(not the 8-pixel default; `auto` is not even a valid CSS padding value). -/
theorem c5_code_bug_eval :
    (∀ props : JValue,
      jsGet props ("@_android:layout_margin") = none →
      jsGet props ("@_android:layout_marginLeft") = none →
      jsGet props ("@_android:layout_marginStart") = none →
      jsGet props ("@_android:layout_marginRight") = none →
      jsGet props ("@_android:layout_marginEnd") = none →
      jsGet props ("@_android:layout_marginTop") = none →
      jsGet props ("@_android:layout_marginBottom") = none →
      getMarginStyle props = "auto auto auto auto")
    ∧ (∀ props : JValue,
      jsGet props ("@_android:padding") = none →
      jsGet props ("@_android:paddingLeft") = none →
      jsGet props ("@_android:paddingStart") = none →
      jsGet props ("@_android:paddingRight") = none →
      jsGet props ("@_android:paddingEnd") = none →
      jsGet props ("@_android:paddingTop") = none →
      jsGet props ("@_android:paddingBottom") = none →
      getPaddingStyle props = "auto auto auto auto") := by
  constructor
  · intro props hm hl hs hr he ht hb
    have hu : marginUniform props = "0" := getAttributeValue_eq_none _ _ rfl hm
    have h1 : marginTopVal props = "0" := by
      unfold marginTopVal
      rw [getAttributeValue_eq_none _ _ rfl ht, hu]
      try decide
    have h2 : marginRightVal props = "0" := by
      unfold marginRightVal
      rw [getAttributeValue_eq_none _ _ rfl hr, getAttributeValue_eq_none _ _ rfl he, hu]
      try decide
    have h3 : marginBottomVal props = "0" := by
      unfold marginBottomVal
      rw [getAttributeValue_eq_none _ _ rfl hb, hu]
      try decide
    have h4 : marginLeftVal props = "0" := by
      unfold marginLeftVal
      rw [getAttributeValue_eq_none _ _ rfl hl, getAttributeValue_eq_none _ _ rfl hs, hu]
      try decide
    unfold getMarginStyle
    rw [h1, h2, h3, h4]
    decide
  · intro props hm hl hs hr he ht hb
    have hu : paddingUniform props = "8px" := getAttributeValue_eq_none _ _ rfl hm
    have h1 : paddingTopVal props = "8px" := by
      unfold paddingTopVal
      rw [getAttributeValue_eq_none _ _ rfl ht, hu]
      try decide
    have h2 : paddingRightVal props = "8px" := by
      unfold paddingRightVal
      rw [getAttributeValue_eq_none _ _ rfl hr, getAttributeValue_eq_none _ _ rfl he, hu]
      try decide
    have h3 : paddingBottomVal props = "8px" := by
      unfold paddingBottomVal
      rw [getAttributeValue_eq_none _ _ rfl hb, hu]
      try decide
    have h4 : paddingLeftVal props = "8px" := by
      unfold paddingLeftVal
      rw [getAttributeValue_eq_none _ _ rfl hl, getAttributeValue_eq_none _ _ rfl hs, hu]
      try decide
    unfold getPaddingStyle
    rw [h1, h2, h3, h4]
    decide

/-- C5 witness: the fully attribute-free node. -/
theorem c5_witness :
    getMarginStyle (.vobj .enil) = "auto auto auto auto"
      ∧ getPaddingStyle (.vobj .enil) = "auto auto auto auto" :=
  ⟨c5_code_bug_eval.1 (.vobj .enil) rfl rfl rfl rfl rfl rfl rfl,
    c5_code_bug_eval.2 (.vobj .enil) rfl rfl rfl rfl rfl rfl rfl⟩

/-! ## Claim C4: spacing precedence and emission order -/

/-- C4: for each of the four sides, margin and padding alike, a nonempty
side-specific attribute wins over everything; with the side-specific
attribute absent, the directional attribute (`Start` for left, `End` for
right) wins over the uniform one; and the four resolved values are emitted
in top-right-bottom-left order. -/
theorem c4_precedence :
    (∀ (props v) , jsGet props ("@_android:layout_marginLeft") = some v → jsToString v ≠ "" →
        marginLeftVal props = jsToString v)
    ∧ (∀ (props v), jsGet props ("@_android:layout_marginLeft") = none →
        jsGet props ("@_android:layout_marginStart") = some v → jsToString v ≠ "" →
        marginLeftVal props = jsToString v)
    ∧ (∀ (props v), jsGet props ("@_android:layout_marginRight") = some v → jsToString v ≠ "" →
        marginRightVal props = jsToString v)
    ∧ (∀ (props v), jsGet props ("@_android:layout_marginRight") = none →
        jsGet props ("@_android:layout_marginEnd") = some v → jsToString v ≠ "" →
        marginRightVal props = jsToString v)
    ∧ (∀ (props v), jsGet props ("@_android:layout_marginTop") = some v → jsToString v ≠ "" →
        marginTopVal props = jsToString v)
    ∧ (∀ (props v), jsGet props ("@_android:layout_marginBottom") = some v → jsToString v ≠ "" →
        marginBottomVal props = jsToString v)
    ∧ (∀ (props v), jsGet props ("@_android:paddingLeft") = some v → jsToString v ≠ "" →
        paddingLeftVal props = jsToString v)
    ∧ (∀ (props v), jsGet props ("@_android:paddingLeft") = none →
        jsGet props ("@_android:paddingStart") = some v → jsToString v ≠ "" →
        paddingLeftVal props = jsToString v)
    ∧ (∀ (props v), jsGet props ("@_android:paddingRight") = some v → jsToString v ≠ "" →
        paddingRightVal props = jsToString v)
    ∧ (∀ (props v), jsGet props ("@_android:paddingRight") = none →
        jsGet props ("@_android:paddingEnd") = some v → jsToString v ≠ "" →
        paddingRightVal props = jsToString v)
    ∧ (∀ (props v), jsGet props ("@_android:paddingTop") = some v → jsToString v ≠ "" →
        paddingTopVal props = jsToString v)
    ∧ (∀ (props v), jsGet props ("@_android:paddingBottom") = some v → jsToString v ≠ "" →
        paddingBottomVal props = jsToString v)
    ∧ (∀ props, getMarginStyle props
        = convertLayoutDimension (.vstr (marginTopVal props)) ++ " "
          ++ convertLayoutDimension (.vstr (marginRightVal props)) ++ " "
          ++ convertLayoutDimension (.vstr (marginBottomVal props)) ++ " "
          ++ convertLayoutDimension (.vstr (marginLeftVal props)))
    ∧ (∀ props, getPaddingStyle props
        = convertLayoutDimension (.vstr (paddingTopVal props)) ++ " "
          ++ convertLayoutDimension (.vstr (paddingRightVal props)) ++ " "
          ++ convertLayoutDimension (.vstr (paddingBottomVal props)) ++ " "
          ++ convertLayoutDimension (.vstr (paddingLeftVal props))) := by
  refine ⟨?_, ?_, ?_, ?_, ?_, ?_, ?_, ?_, ?_, ?_, ?_, ?_, fun _ => rfl, fun _ => rfl⟩
  · intro props v h hne
    unfold marginLeftVal
    rw [getAttributeValue_eq_some _ _ rfl h]
    simp [jsOrStr, hne]
  · intro props v h0 h hne
    unfold marginLeftVal
    rw [getAttributeValue_eq_none _ _ rfl h0, getAttributeValue_eq_some _ _ rfl h]
    simp [jsOrStr, hne]
  · intro props v h hne
    unfold marginRightVal
    rw [getAttributeValue_eq_some _ _ rfl h]
    simp [jsOrStr, hne]
  · intro props v h0 h hne
    unfold marginRightVal
    rw [getAttributeValue_eq_none _ _ rfl h0, getAttributeValue_eq_some _ _ rfl h]
    simp [jsOrStr, hne]
  · intro props v h hne
    unfold marginTopVal
    rw [getAttributeValue_eq_some _ _ rfl h]
    simp [jsOrStr, hne]
  · intro props v h hne
    unfold marginBottomVal
    rw [getAttributeValue_eq_some _ _ rfl h]
    simp [jsOrStr, hne]
  · intro props v h hne
    unfold paddingLeftVal
    rw [getAttributeValue_eq_some _ _ rfl h]
    simp [jsOrStr, hne]
  · intro props v h0 h hne
    unfold paddingLeftVal
    rw [getAttributeValue_eq_none _ _ rfl h0, getAttributeValue_eq_some _ _ rfl h]
    simp [jsOrStr, hne]
  · intro props v h hne
    unfold paddingRightVal
    rw [getAttributeValue_eq_some _ _ rfl h]
    simp [jsOrStr, hne]
  · intro props v h0 h hne
    unfold paddingRightVal
    rw [getAttributeValue_eq_none _ _ rfl h0, getAttributeValue_eq_some _ _ rfl h]
    simp [jsOrStr, hne]
  · intro props v h hne
    unfold paddingTopVal
    rw [getAttributeValue_eq_some _ _ rfl h]
    simp [jsOrStr, hne]
  · intro props v h hne
    unfold paddingBottomVal
    rw [getAttributeValue_eq_some _ _ rfl h]
    simp [jsOrStr, hne]

/-- C4 witness: side-specific margins beat the uniform margin, directional
padding beats the uniform padding, on the concrete node above. -/
theorem c4_witness :
    marginLeftVal spacingProps = "2dp"
      ∧ marginRightVal spacingProps = "4dp"
      ∧ marginTopVal spacingProps = "6dp"
      ∧ marginBottomVal spacingProps = "7dp"
      ∧ paddingLeftVal spacingProps = "8dp"
      ∧ paddingRightVal spacingProps = "9dp" :=
  ⟨c4_precedence.1 spacingProps (.vstr ("2dp")) rfl (by decide),
    c4_precedence.2.2.1 spacingProps (.vstr ("4dp")) rfl (by decide),
    c4_precedence.2.2.2.2.1 spacingProps (.vstr ("6dp")) rfl (by decide),
    c4_precedence.2.2.2.2.2.1 spacingProps (.vstr ("7dp")) rfl (by decide),
    c4_precedence.2.2.2.2.2.2.2.1 spacingProps (.vstr ("8dp")) rfl rfl (by decide),
    c4_precedence.2.2.2.2.2.2.2.2.2.1 spacingProps (.vstr ("9dp")) rfl rfl (by decide)⟩

/-! ## Claim C7: path fill color and opacity defaulting -/

/-- C7: an emitted path defaults its fill to opaque black `#000000` when the
path declares no fill color; its fill-opacity is the path's own `fillAlpha`
when present, else the enclosing vector's `alpha`, else `1`; out-of-range
alpha values pass through unclamped. -/
theorem c7_fill_defaults :
    (∀ vector path : JValue, jsGet path ("@_android:fillColor") = none →
      pathFragment (vectorAlpha vector) path
        = "<path d=\"" ++ getAttributeValue path ("pathData") ("")
          ++ "\" fill=\"" ++ "#000000" ++ "\" fill-opacity=\""
          ++ getAttributeValue path ("fillAlpha") (vectorAlpha vector) ++ "\"/>")
    ∧ (∀ (vector path : JValue) (f : JValue), jsGet path ("@_android:fillAlpha") = some f →
      getAttributeValue path ("fillAlpha") (vectorAlpha vector) = jsToString f)
    ∧ (∀ (vector path : JValue) (a : JValue), jsGet path ("@_android:fillAlpha") = none →
      jsGet vector ("@_android:alpha") = some a →
      getAttributeValue path ("fillAlpha") (vectorAlpha vector) = jsToString a)
    ∧ (∀ vector path : JValue, jsGet path ("@_android:fillAlpha") = none →
      jsGet vector ("@_android:alpha") = none →
      getAttributeValue path ("fillAlpha") (vectorAlpha vector) = "1")
    ∧ getAttributeValue (.vobj (.econs "@_android:fillAlpha" (.vnum ⟨5, 0⟩) .enil))
        ("fillAlpha") (vectorAlpha (.vobj .enil)) = "5"
    ∧ (∀ (alpha : String) (p : JValue) (rest : JList),
      pathsConcat alpha (.jcons p rest) = pathFragment alpha p ++ pathsConcat alpha rest) := by
  refine ⟨?_, ?_, ?_, ?_, ?_, fun _ _ _ => rfl⟩
  · intro vector path h
    unfold pathFragment
    rw [getAttributeValue_eq_none _ _ rfl h]
  · intro vector path f h
    exact getAttributeValue_eq_some _ _ rfl h
  · intro vector path a h ha
    rw [getAttributeValue_eq_none _ _ rfl h]
    unfold vectorAlpha
    exact getAttributeValue_eq_some _ _ rfl ha
  · intro vector path h ha
    rw [getAttributeValue_eq_none _ _ rfl h]
    unfold vectorAlpha
    exact getAttributeValue_eq_none _ _ rfl ha
  · rfl

/-- C7 witness: concrete instances of each defaulting rule. -/
theorem c7_witness :
    pathFragment (vectorAlpha vecAlphaHalf) pathPlain
        = "<path d=\"" ++ getAttributeValue pathPlain ("pathData") ("")
          ++ "\" fill=\"" ++ "#000000" ++ "\" fill-opacity=\""
          ++ getAttributeValue pathPlain ("fillAlpha") (vectorAlpha vecAlphaHalf) ++ "\"/>"
      ∧ getAttributeValue pathOwnAlpha ("fillAlpha") (vectorAlpha vecAlphaHalf) = jsToString (.vnum ⟨3, 1⟩)
      ∧ getAttributeValue pathPlain ("fillAlpha") (vectorAlpha vecAlphaHalf) = jsToString (.vnum ⟨5, 1⟩)
      ∧ getAttributeValue pathPlain ("fillAlpha") (vectorAlpha (.vobj .enil)) = "1" :=
  ⟨c7_fill_defaults.1 vecAlphaHalf pathPlain rfl,
    c7_fill_defaults.2.1 vecAlphaHalf pathOwnAlpha (.vnum ⟨3, 1⟩) rfl,
    c7_fill_defaults.2.2.1 vecAlphaHalf pathPlain (.vnum ⟨5, 1⟩) rfl rfl,
    c7_fill_defaults.2.2.2.1 (.vobj .enil) pathPlain rfl rfl⟩

/-! ## Claim C6: viewBox fallback chain -/

/-- C6 counterexample: the claim says ANY length-unit suffix is stripped in
the width/height fallback, but the code only removes the first `"dp"`
occurrence, so a `px` width leaks into the viewBox verbatim. -/
theorem c6_counterexample :
    jsIncludes (convertVectorToSVG vecPx48) ("viewBox=\"0 0 48 48\"") = false
      ∧ jsIncludes (convertVectorToSVG vecPx48) ("viewBox=\"0 0 48px 48px\"") = true
      ∧ vectorViewportWidth vecPx48 = "48px" :=
  ⟨by decide, by decide, by decide⟩

/-- C6 (amended): the emitted root's viewBox is
`0 0 viewportWidth viewportHeight`; absent viewport dimensions fall back to
the declared width/height with the first `"dp"` substring removed (other
unit suffixes are left in place); absent those too, both default to `24`
(the code's `'24dp'` default with its `dp` stripped). -/
theorem c6_amended :
    (∀ (v w : JValue), jsGet v ("@_android:viewportWidth") = some w →
      vectorViewportWidth v = jsToString w)
    ∧ (∀ (v hv : JValue), jsGet v ("@_android:viewportHeight") = some hv →
      vectorViewportHeight v = jsToString hv)
    ∧ (∀ v : JValue, jsGet v ("@_android:viewportWidth") = none →
      vectorViewportWidth v = vectorWidth v)
    ∧ (∀ (v wv : JValue), jsGet v ("@_android:width") = some wv →
      vectorWidth v = jsReplaceOnce (jsToString wv) ("dp") (""))
    ∧ (∀ v : JValue, jsGet v ("@_android:viewportHeight") = none →
      vectorViewportHeight v = vectorHeight v)
    ∧ (∀ (v hv : JValue), jsGet v ("@_android:height") = some hv →
      vectorHeight v = jsReplaceOnce (jsToString hv) ("dp") (""))
    ∧ (∀ v : JValue, jsGet v ("@_android:viewportWidth") = none →
      jsGet v ("@_android:width") = none → vectorViewportWidth v = "24")
    ∧ (∀ v : JValue, jsGet v ("@_android:viewportHeight") = none →
      jsGet v ("@_android:height") = none → vectorViewportHeight v = "24")
    ∧ (∀ v : JValue, convertVectorToSVG v
        = "<svg xmlns=\"http://www.w3.org/2000/svg\" \n                     width=\"100%\" \n                     height=\"100%\"\n                     viewBox=\"0 0 "
          ++ vectorViewportWidth v ++ " " ++ vectorViewportHeight v
          ++ "\"\n                     preserveAspectRatio=\"xMidYMid meet\">\n                    "
          ++ pathsConcat (vectorAlpha v) (pathItems v)
          ++ "\n                </svg>") := by
  refine ⟨?_, ?_, ?_, ?_, ?_, ?_, ?_, ?_, fun _ => rfl⟩
  · intro v w h
    exact getAttributeValue_eq_some _ _ rfl h
  · intro v hv h
    exact getAttributeValue_eq_some _ _ rfl h
  · intro v h
    exact getAttributeValue_eq_none _ _ rfl h
  · intro v wv h
    unfold vectorWidth
    rw [getAttributeValue_eq_some _ _ rfl h]
  · intro v h
    exact getAttributeValue_eq_none _ _ rfl h
  · intro v hv h
    unfold vectorHeight
    rw [getAttributeValue_eq_some _ _ rfl h]
  · intro v h1 h2
    unfold vectorViewportWidth
    rw [getAttributeValue_eq_none _ _ rfl h1]
    unfold vectorWidth
    rw [getAttributeValue_eq_none _ _ rfl h2]
    decide
  · intro v h1 h2
    unfold vectorViewportHeight
    rw [getAttributeValue_eq_none _ _ rfl h1]
    unfold vectorHeight
    rw [getAttributeValue_eq_none _ _ rfl h2]
    decide

/-- C6 witness: with `android:width="48dp"` and no viewport attributes the
viewBox falls back to `0 0 48 48`, and with nothing at all to `0 0 24 24`. -/
theorem c6_witness :
    vectorViewportWidth vecDp48 = vectorWidth vecDp48
      ∧ vectorWidth vecDp48 = jsReplaceOnce (jsToString (.vstr "48dp")) ("dp") ("")
      ∧ vectorViewportWidth (.vobj .enil) = "24"
      ∧ vectorViewportHeight (.vobj .enil) = "24" :=
  ⟨c6_amended.2.2.1 vecDp48 rfl,
    c6_amended.2.2.2.1 vecDp48 (.vstr ("48dp")) rfl,
    c6_amended.2.2.2.2.2.2.1 (.vobj .enil) rfl rfl,
    c6_amended.2.2.2.2.2.2.2.1 (.vobj .enil) rfl rfl⟩

/-! ## Claim C9: group elements -/

theorem lookupE_append_single (q k : String) (g : JValue) :
    ∀ es : JEntries, q ≠ k → lookupE q (eAppend es (.econs k g .enil)) = lookupE q es
  | .enil, hne => by simp [eAppend, lookupE, Ne.symm hne]
  | .econs k' v' rest, hne => by
    simp only [eAppend, lookupE]
    split
    · rfl
    · exact lookupE_append_single q k g rest hne

/-- C9 counterexample: the claim says every group's directly nested paths
are rendered with a translate-and-rotate transform; the main converter
emits NO shape at all for a vector whose paths sit inside a group (and no
`transform` anywhere). -/
theorem c9_counterexample :
    jsIncludes (convertVectorToSVG vecWithGroup) ("<path") = false
      ∧ jsIncludes (convertVectorToSVG vecWithGroup) ("M0 0L24 24") = false
      ∧ jsIncludes (convertVectorToSVG vecWithGroup) ("transform") = false :=
  ⟨by decide, by decide, by decide⟩

/-- C9 (amended): groups get no transform at all — the main converter's
output is entirely independent of any `group` entry (grouped paths are
dropped), and the `part_001` variant renders a group's directly nested
paths but with no coordinate transform. -/
theorem c9_amended :
    (∀ (es : JEntries) (g : JValue),
      convertVectorToSVG (.vobj (eAppend es (.econs ("group") g .enil)))
        = convertVectorToSVG (.vobj es))
    ∧ (∀ (p : JValue) (rest : JList),
      V1.convertVectorPaths (.jcons p rest)
        = ("<path d=\"" ++ V1.propStr p ("pathData") ++ "\" fill=\""
            ++ V1.propOr p ("fillColor") ("#FFFFFF") ++ "\" />") :: V1.convertVectorPaths rest)
    ∧ jsIncludes (V1.convertVectorToSVG v1GroupDoc) ("<path d=\"M0 0L10 10\"") = true
    ∧ jsIncludes (V1.convertVectorToSVG v1GroupDoc) ("transform") = false := by
  refine ⟨?_, fun _ _ => rfl, by decide, by decide⟩
  intro es g
  unfold convertVectorToSVG vectorViewportWidth vectorViewportHeight vectorWidth vectorHeight
    vectorAlpha pathItems
  simp only [getAttributeValue, jsGet]
  rw [lookupE_append_single ("@_android:" ++ "viewportWidth") ("group") g es (by decide),
    lookupE_append_single ("@_android:" ++ "viewportHeight") ("group") g es (by decide),
    lookupE_append_single ("@_android:" ++ "width") ("group") g es (by decide),
    lookupE_append_single ("@_android:" ++ "height") ("group") g es (by decide),
    lookupE_append_single ("@_android:" ++ "alpha") ("group") g es (by decide),
    lookupE_append_single ("path") ("group") g es (by decide)]

/-- C9 witness for the amended group-independence at a concrete input. -/
theorem c9_witness :
    convertVectorToSVG (.vobj (eAppend (.econs "@_android:width" (.vstr "24dp") .enil)
        (.econs ("group") (.varr .jnil) .enil)))
      = convertVectorToSVG (.vobj (.econs "@_android:width" (.vstr "24dp") .enil)) :=
  c9_amended.1 (.econs "@_android:width" (.vstr "24dp") .enil) (.varr .jnil)

/-! ## Claim C2: structure error and top-level catch -/

theorem findRootElement_eq_none : ∀ es : JEntries, noLayoutLikeKeys es = true →
    findRootElement es = none
  | .enil, _ => rfl
  | .econs k v rest, h => by
    simp only [noLayoutLikeKeys, Bool.and_eq_true, Bool.not_eq_true'] at h
    simp only [findRootElement, h.1]
    exact findRootElement_eq_none rest h.2

theorem sinfix_extend {sub m : List Char} (pre post : List Char) (h : sub <:+: m) :
    sub <:+: (pre ++ m ++ post) := by
  obtain ⟨s, t, rfl⟩ := h
  exact ⟨pre ++ s, t ++ post, by simp⟩

/-- C2: a parsed document with no `vector` root and no layout-like root key
renders the structure-error page `Failed to process XML: No valid root
element found`; moreover every conversion outcome is either a successful
page or the error page built from the thrown message (the catch at the
render entry point turns every throw into an error document and never
re-throws), and the error page always displays the message and is never
blank. -/
theorem c2_structure_error :
    (∀ parsed : JValue, jsGet parsed ("vector") = none →
      noLayoutLikeKeys (entriesOf parsed) = true →
      updatePreviewHtml parsed
        = getErrorHtml ("Failed to process XML: No valid root element found"))
    ∧ (∀ parsed : JValue,
      (∃ e, convertParsed parsed = .error e
          ∧ updatePreviewHtml parsed = getErrorHtml ("Failed to process XML: " ++ e))
        ∨ (∃ html, convertParsed parsed = .ok html ∧ updatePreviewHtml parsed = html))
    ∧ (∀ msg : String, msg.data <:+: (getErrorHtml msg).data
        ∧ ("<h3>").data <:+: (getErrorHtml msg).data
        ∧ (getErrorHtml msg).data ≠ []) := by
  refine ⟨?_, ?_, ?_⟩
  · intro parsed hvec hkeys
    have hroot : findRootElement (entriesOf parsed) = none :=
      findRootElement_eq_none _ hkeys
    unfold updatePreviewHtml convertParsed
    rw [hvec, hroot]
    rfl
  · intro parsed
    cases hc : convertParsed parsed with
    | ok html => exact Or.inr ⟨html, rfl, by unfold updatePreviewHtml; rw [hc]⟩
    | error e => exact Or.inl ⟨e, rfl, by unfold updatePreviewHtml; rw [hc]⟩
  · intro msg
    obtain ⟨X, hX⟩ : ∃ X, errorShellA = X ++ "                    <h3>" := ⟨_, rfl⟩
    refine ⟨?_, ?_, ?_⟩
    · have : (getErrorHtml msg).data = errorShellA.data ++ msg.data ++ errorShellB.data := by
        simp [getErrorHtml, String.data_append]
      rw [this]
      exact sinfix_extend _ _ (List.infix_refl _)
    · have : (getErrorHtml msg).data
          = X.data ++ ("                    <h3>").data ++ (msg.data ++ errorShellB.data) := by
        simp [getErrorHtml, hX, String.data_append]
      rw [this]
      exact sinfix_extend _ _ (by decide)
    · have : (getErrorHtml msg).data = errorShellA.data ++ msg.data ++ errorShellB.data := by
        simp [getErrorHtml, String.data_append]
      rw [this]
      intro hnil
      have hB : errorShellB.data = [] := by
        rcases List.append_eq_nil.mp hnil with ⟨_, h2⟩
        exact h2
      have : errorShellB.data ≠ [] := by decide
      exact this hB

/-- C2 witness: scenario E renders the structure-error page. -/
theorem c2_witness :
    updatePreviewHtml parsedScenarioE
      = getErrorHtml ("Failed to process XML: No valid root element found") :=
  c2_structure_error.1 parsedScenarioE rfl (by decide)

/-! ## Claim C10: only the first same-named sibling is rendered -/

theorem lookupE_mid (q k : String) (v v' : JValue) (e2 : JEntries) (hne : q ≠ k) :
    ∀ e1 : JEntries, lookupE q (eAppend e1 (.econs k v e2))
      = lookupE q (eAppend e1 (.econs k v' e2))
  | .enil => by simp [eAppend, lookupE, Ne.symm hne]
  | .econs k' w rest => by
    simp only [eAppend, lookupE]
    split
    · rfl
    · exact lookupE_mid q k v v' e2 hne rest

theorem startsWith_android (name : String) : jsStartsWith ("@_android:" ++ name) ("@_") = true := by
  show isPre ("@_").data ("@_android:" ++ name).data = true
  rw [String.data_append]
  rw [show ("@_android:".data : List Char) = '@' :: '_' :: ("android:").data from rfl]
  simp [isPre]

theorem childrenContent_econs (k : String) (v : JValue) (rest : JEntries) :
    childrenContent (.econs k v rest) = childEntryHtml k v ++ childrenContent rest := by
  conv_lhs => rw [childrenContent.eq_def]
  rfl

theorem childrenContent_eAppend (e1 e2 : JEntries) :
    childrenContent (eAppend e1 e2) = childrenContent e1 ++ childrenContent e2 := by
  induction e1 using JEntries.indOn with
  | h0 =>
    rw [show eAppend .enil e2 = e2 from rfl]
    rw [show childrenContent .enil = "" from rfl]
    rw [show ("" ++ childrenContent e2 : String) = childrenContent e2 from
      (String.empty_append (childrenContent e2))]
  | h1 k v rest ih =>
    rw [show eAppend (.econs k v rest) e2 = .econs k v (eAppend rest e2) from rfl]
    rw [childrenContent_econs, childrenContent_econs, ih, String.append_assoc]

/-- C10: the child loop renders only `value[0]` of each same-named sibling
array: the output is unchanged under replacing everything after the first
sibling, and concretely the second of two `TextView` siblings is silently
dropped while the first is emitted. -/
theorem c10_first_sibling_only :
    (∀ (type k : String) (x : JValue) (xs xs' : JList) (e1 e2 : JEntries),
      jsStartsWith k ("@_") = false →
      renderLayoutElement type (.vobj (eAppend e1 (.econs k (.varr (.jcons x xs)) e2)))
        = renderLayoutElement type (.vobj (eAppend e1 (.econs k (.varr (.jcons x xs')) e2))))
    ∧ jsIncludes (renderLayoutElement ("LinearLayout") twoKidsProps) ("First") = true
    ∧ jsIncludes (renderLayoutElement ("LinearLayout") twoKidsProps) ("Second") = false := by
  refine ⟨?_, by decide, by decide⟩
  intro type k x xs xs' e1 e2 hk
  have hkey : ∀ name : String, ("@_android:" ++ name) ≠ k := by
    intro name he
    rw [← he] at hk
    rw [startsWith_android name] at hk
    exact Bool.noConfusion hk
  have hattr : ∀ name d : String,
      getAttributeValue (.vobj (eAppend e1 (.econs k (.varr (.jcons x xs)) e2))) name d
        = getAttributeValue (.vobj (eAppend e1 (.econs k (.varr (.jcons x xs')) e2))) name d := by
    intro name d
    show (match lookupE ("@_android:" ++ name) (eAppend e1 (.econs k (.varr (.jcons x xs)) e2)) with
        | some value => jsToString value
        | none => d)
      = (match lookupE ("@_android:" ++ name) (eAppend e1 (.econs k (.varr (.jcons x xs')) e2)) with
        | some value => jsToString value
        | none => d)
    rw [lookupE_mid ("@_android:" ++ name) k (.varr (.jcons x xs)) (.varr (.jcons x xs')) e2
      (hkey name) e1]
  have hid : elementId (.vobj (eAppend e1 (.econs k (.varr (.jcons x xs)) e2)))
      = elementId (.vobj (eAppend e1 (.econs k (.varr (.jcons x xs')) e2))) := by
    unfold elementId
    rw [hattr]
  have hstyle : nodeStyle (.vobj (eAppend e1 (.econs k (.varr (.jcons x xs)) e2)))
      = nodeStyle (.vobj (eAppend e1 (.econs k (.varr (.jcons x xs')) e2))) := by
    simp only [nodeStyle, constraintsOf, getMarginStyle, getPaddingStyle, marginLeftVal,
      marginRightVal, marginTopVal, marginBottomVal, paddingLeftVal, paddingRightVal,
      paddingTopVal, paddingBottomVal, marginUniform, paddingUniform, hid, hattr]
  have hcontent : contentFor type (.vobj (eAppend e1 (.econs k (.varr (.jcons x xs)) e2)))
      = contentFor type (.vobj (eAppend e1 (.econs k (.varr (.jcons x xs')) e2))) := by
    unfold contentFor
    simp only [hattr]
  have hchild : childrenContent (eAppend e1 (.econs k (.varr (.jcons x xs)) e2))
      = childrenContent (eAppend e1 (.econs k (.varr (.jcons x xs')) e2)) := by
    rw [childrenContent_eAppend, childrenContent_eAppend,
      childrenContent_econs, childrenContent_econs]
    rw [show childEntryHtml k (.varr (.jcons x xs)) = childEntryHtml k (.varr (.jcons x xs'))
      from rfl]
  simp only [renderLayoutElement]
  rw [hid, hstyle, hcontent, hchild]

/-- C10 witness: a concrete application of the sibling-tail independence. -/
theorem c10_witness :
    renderLayoutElement ("Frame")
        (.vobj (eAppend .enil (.econs ("TextView")
          (.varr (.jcons kidFirst (.jcons kidSecond .jnil))) .enil)))
      = renderLayoutElement ("Frame")
        (.vobj (eAppend .enil (.econs ("TextView")
          (.varr (.jcons kidFirst .jnil)) .enil))) :=
  c10_first_sibling_only.1 ("Frame") ("TextView") kidFirst (.jcons kidSecond .jnil) .jnil
    .enil .enil (by decide)

/-! ## Claim C1: horizontal bias placement (end-to-end scenario D) -/

/-- C1 is a code bug: with the layout parser configuration
(`removeNSPrefix: true`, attribute prefix `@_`) the scenario-D attributes
are stored under `@_layout_...` keys, but `getAttributeValue` hardcodes the
`@_android:` prefix (line 113), so neither the anchors nor the bias are
ever read: the bias lookup returns its `'0.5'` default, the anchors read as
empty, and the rendered node gets NO `left:` placement at all — neither the
claimed 25% nor even the 50% default.  The bias machinery itself works
when it is fed `@_android:`-keyed attributes (last conjunct), confirming
the spec describes the intent and the key prefix is the slip. -/
theorem c1_code_bug_eval :
    parsedAttrKey true ("app:layout_constraintHorizontal_bias")
        = "@_layout_constraintHorizontal_bias"
      ∧ jsGet childScenD ("@_layout_constraintHorizontal_bias") = some (.vnum ⟨25, 2⟩)
      ∧ getAttributeValue childScenD ("layout_constraintHorizontal_bias") ("0.5") = "0.5"
      ∧ (constraintsOf childScenD).leftToLeft = some ("")
      ∧ jsIncludes (renderLayoutElement ("TextView") childScenD) ("left:") = false
      ∧ updatePreviewHtml parsedScenD
          = getLayoutPreviewHtml (convertLayoutToHtml
              ("androidx.constraintlayout.widget.ConstraintLayout") rootScenD)
      ∧ jsIncludes (nodeStyle childAndroidKeys) ("left: 25%;") = true :=
  ⟨by decide, rfl, by decide, by decide, by decide, by rfl, by decide⟩

/-! ## Claim C8: combined two-dimensional centering

The proof tracks the global regex replacement `/transform:[^;]+;/g`
(embedded as `rmTAux`) through the style string.  The dimension, margin,
padding and bias fragments interpolated into the style only use characters
from a safe alphabet that cannot contribute to a `transform:` match. -/

theorem digitChar_mem_SAFE (d : ℕ) : digitChar d ∈ SAFE := by
  have h : ∀ r, r < 10 → Char.ofNat (48 + r) ∈ SAFE := by decide
  have := h (d % 10) (Nat.mod_lt d (by norm_num))
  simpa [digitChar] using this

theorem natDigitsAux_safe : ∀ fuel n : ℕ, ∀ c ∈ natDigitsAux fuel n, c ∈ SAFE := by
  intro fuel
  induction fuel with
  | zero => intro n c hc; simp [natDigitsAux] at hc
  | succ f ih =>
    intro n c hc
    cases n with
    | zero => simp [natDigitsAux] at hc
    | succ m =>
      simp only [natDigitsAux, List.mem_append, List.mem_singleton] at hc
      rcases hc with hc | rfl
      · exact ih _ c hc
      · exact digitChar_mem_SAFE _

theorem natStr_safe (n : ℕ) : safeChars (natStr n) := by
  intro c hc
  unfold natStr at hc
  split at hc
  · simp at hc
    simp [hc, SAFE]
  · exact natDigitsAux_safe n n c hc

theorem intStr_safe (i : ℤ) : safeChars (intStr i) := by
  intro c hc
  unfold intStr at hc
  split at hc
  · rw [String.data_append] at hc
    rcases List.mem_append.mp hc with hc | hc
    · simp at hc
      simp [hc, SAFE]
    · exact natStr_safe _ c hc
  · exact natStr_safe _ c hc

theorem jsNumToStringNat_safe (n e : ℕ) : safeChars (jsNumToStringNat n e) := by
  intro c hc
  unfold jsNumToStringNat at hc
  split at hc
  · exact natStr_safe _ c hc
  · simp only [String.data_append] at hc
    have hpad : ∀ x ∈ padTo (e+1) (natDigitsAux n n), x ∈ SAFE := by
      intro x hx
      unfold padTo at hx
      rcases List.mem_append.mp hx with hx | hx
      · rw [List.eq_of_mem_replicate hx]
        decide
      · exact natDigitsAux_safe _ _ _ hx
    rcases List.mem_append.mp hc with hc | hc
    · rcases List.mem_append.mp hc with hc | hc
      · exact hpad c (List.mem_of_mem_take hc)
      · simp at hc
        simp [hc, SAFE]
    · exact hpad c (List.mem_of_mem_drop hc)

theorem jsNumToString_safe (q : JNum) : safeChars (jsNumToString q) := by
  intro c hc
  revert hc
  unfold jsNumToString
  dsimp only
  intro hc
  split at hc
  · rw [String.data_append] at hc
    rcases List.mem_append.mp hc with hc | hc
    · simp at hc
      simp [hc, SAFE]
    · exact jsNumToStringNat_safe _ _ c hc
  · exact jsNumToStringNat_safe _ _ c hc

theorem numOptRender_safe (b : Option JNum) : safeChars (numOptRender b) := by
  intro c hc
  unfold numOptRender at hc
  split at hc
  · exact jsNumToString_safe _ c hc
  · exact (by decide : ∀ x ∈ ("NaN" : String).data, x ∈ SAFE) c hc

theorem convertLayoutDimension_safe (v : JValue) : safeChars (convertLayoutDimension v) := by
  have hauto : ∀ x ∈ ("auto" : String).data, x ∈ SAFE := by decide
  have h100 : ∀ x ∈ ("100%" : String).data, x ∈ SAFE := by decide
  have hpx : ∀ x ∈ ("px" : String).data, x ∈ SAFE := by decide
  have hnan : ∀ x ∈ ("NaN" : String).data, x ∈ SAFE := by decide
  intro c hc
  unfold convertLayoutDimension at hc
  split at hc
  · exact hauto c hc
  · split at hc
    · exact h100 c hc
    · split at hc
      · split at hc
        · rw [String.data_append] at hc
          rcases List.mem_append.mp hc with hc | hc
          · split at hc
            · exact intStr_safe _ c hc
            · exact hnan c hc
          · exact hpx c hc
        · split at hc
          · rw [String.data_append] at hc
            rcases List.mem_append.mp hc with hc | hc
            · split at hc
              · exact intStr_safe _ c hc
              · exact hnan c hc
            · exact hpx c hc
          · exact hauto c hc
      · rw [String.data_append] at hc
        rcases List.mem_append.mp hc with hc | hc
        · exact jsNumToString_safe _ c hc
        · exact hpx c hc
      · exact hauto c hc

theorem sep_safe : safeChars (" ") := by
  intro c hc
  exact (by decide : ∀ x ∈ (" " : String).data, x ∈ SAFE) c hc

theorem append_safe {a b : String} (ha : safeChars a) (hb : safeChars b) :
    safeChars (a ++ b) := by
  intro c hc
  rw [String.data_append] at hc
  rcases List.mem_append.mp hc with hc | hc
  · exact ha c hc
  · exact hb c hc

theorem getMarginStyle_safe (props : JValue) : safeChars (getMarginStyle props) := by
  unfold getMarginStyle
  exact append_safe (append_safe (append_safe (append_safe (append_safe (append_safe
    (convertLayoutDimension_safe _) sep_safe) (convertLayoutDimension_safe _)) sep_safe)
    (convertLayoutDimension_safe _)) sep_safe) (convertLayoutDimension_safe _)

theorem getPaddingStyle_safe (props : JValue) : safeChars (getPaddingStyle props) := by
  unfold getPaddingStyle
  exact append_safe (append_safe (append_safe (append_safe (append_safe (append_safe
    (convertLayoutDimension_safe _) sep_safe) (convertLayoutDimension_safe _)) sep_safe)
    (convertLayoutDimension_safe _)) sep_safe) (convertLayoutDimension_safe _)

theorem not_infix_of_not_mem {a : Char} {p l : List Char} (hp : a ∈ p) (hl : a ∉ l) :
    ¬ p <:+: l := fun h => hl (h.subset hp)

theorem infix_cons {p l : List Char} (x : Char) (h : p <:+: l) : p <:+: x :: l := by
  obtain ⟨s, t, he⟩ := h
  exact ⟨x :: s, t, by simp [he]⟩

theorem safe_no_rm {s : String} (hs : safeChars s) : ¬ (['r', 'm'] <:+: s.data) :=
  not_infix_of_not_mem (show ('r') ∈ ['r', 'm'] by decide)
    (fun hmem => by have := hs 'r' hmem; revert this; decide)

theorem infix_pair_append {a b : Char} : ∀ {u v : List Char}, [a, b] <:+: u ++ v →
    [a, b] <:+: u ∨ [a, b] <:+: v ∨ (u.getLast? = some a ∧ v.head? = some b) := by
  intro u
  induction u with
  | nil => intro v h; exact Or.inr (Or.inl h)
  | cons x u' ih =>
    intro v h
    rw [List.cons_append, List.infix_cons_iff] at h
    rcases h with h | h
    · rcases List.cons_prefix_cons.mp h with ⟨rfl, h2⟩
      cases u' with
      | nil =>
        cases v with
        | nil => simp at h2
        | cons y v' =>
          rcases List.cons_prefix_cons.mp h2 with ⟨rfl, _⟩
          exact Or.inr (Or.inr ⟨rfl, rfl⟩)
      | cons y u'' =>
        rcases List.cons_prefix_cons.mp h2 with ⟨rfl, _⟩
        exact Or.inl ⟨[], u'' ++ v.take 0 ++ u''.drop u''.length, by simp⟩
    · rcases ih h with h | h | ⟨h1, h2⟩
      · exact Or.inl (infix_cons x h)
      · exact Or.inr (Or.inl h)
      · refine Or.inr (Or.inr ⟨?_, h2⟩)
        cases u' with
        | nil => simp at h1
        | cons z u'' => rw [List.getLast?_cons_cons]; exact h1

theorem noPair_append {a b : Char} {u v : List Char}
    (h1 : ¬ [a, b] <:+: u) (h2 : ¬ [a, b] <:+: v)
    (h3 : ∀ c, v.head? = some c → c ≠ b) : ¬ [a, b] <:+: u ++ v := by
  intro h
  rcases infix_pair_append h with h | h | ⟨_, hh⟩
  · exact h1 h
  · exact h2 h
  · exact h3 b hh rfl

theorem rmTAux_cons_none {c : Char} {cs : List Char} (h : takeMatch (c :: cs) = none) :
    rmTAux (c :: cs) = c :: rmTAux cs := by
  rw [rmTAux.eq_def]
  split
  · rename_i heq
    exact absurd heq (by simp)
  · rename_i c2 cs2 heq
    obtain ⟨rfl, rfl⟩ := List.cons.inj heq
    split
    · rename_i r htm
      rw [h] at htm
      exact Option.noConfusion htm
    · rfl

theorem rmTAux_cons_some {c : Char} {cs r : List Char} (h : takeMatch (c :: cs) = some r) :
    rmTAux (c :: cs) = rmTAux r := by
  rw [rmTAux.eq_def]
  split
  · rename_i heq
    exact absurd heq (by simp)
  · rename_i c2 cs2 heq
    obtain ⟨rfl, rfl⟩ := List.cons.inj heq
    split
    · rename_i r2 htm
      rw [h] at htm
      rw [Option.some.inj htm]
    · rename_i htm
      rw [h] at htm
      exact Option.noConfusion htm

theorem isPre_append_left : ∀ (p a : List Char), p.length ≤ a.length →
    ∀ b, isPre p (a ++ b) = isPre p a := by
  intro p
  induction p with
  | nil => intro a _ b; rfl
  | cons q ps ih =>
    intro a hlen b
    cases a with
    | nil => exact absurd hlen (by simp)
    | cons x a' =>
      simp only [List.cons_append, isPre]
      simp only [List.length_cons, Nat.succ_le_succ_iff] at hlen
      rw [List.append_eq, ih a' hlen b]

theorem seekSemi_append : ∀ (a : List Char), (∀ c ∈ a, c ≠ ';') →
    ∀ b, seekSemi (a ++ (';' :: b)) = some b := by
  intro a
  induction a with
  | nil => intro _ b; simp [seekSemi]
  | cons x a' ih =>
    intro h b
    have hx : x ≠ ';' := h x (by simp)
    show (if x = ';' then some (a' ++ (';' :: b)) else seekSemi (a' ++ (';' :: b))) = some b
    rw [if_neg hx]
    exact ih (fun c hc => h c (by simp [hc])) b

theorem takeMatch_TX (tail : List Char) :
    takeMatch (("transform: translateX(-50%);").data ++ tail) = some tail := by
  have h1 : isPre PAT (("transform: translateX(-50%);").data ++ tail) = true := by
    rw [isPre_append_left PAT _ (by decide) tail]
    decide
  unfold takeMatch
  rw [if_pos h1]
  rw [List.drop_append_of_le_length (by decide)]
  rw [show (("transform: translateX(-50%);").data).drop 10
      = (" translateX(-50%)").data ++ [';'] from by decide]
  rw [List.append_assoc]
  show afterColonMatch (' ' :: ((("translateX(-50%)").data ++ (';' :: tail)))) = some tail
  simp only [afterColonMatch]
  rw [if_neg (show ¬((' ' : Char) = ';') from by decide)]
  exact seekSemi_append _ (by decide) tail

theorem takeMatch_TY (tail : List Char) :
    takeMatch (("transform: translateY(-50%);").data ++ tail) = some tail := by
  have h1 : isPre PAT (("transform: translateY(-50%);").data ++ tail) = true := by
    rw [isPre_append_left PAT _ (by decide) tail]
    decide
  unfold takeMatch
  rw [if_pos h1]
  rw [List.drop_append_of_le_length (by decide)]
  rw [show (("transform: translateY(-50%);").data).drop 10
      = (" translateY(-50%)").data ++ [';'] from by decide]
  rw [List.append_assoc]
  show afterColonMatch (' ' :: ((("translateY(-50%)").data ++ (';' :: tail)))) = some tail
  simp only [afterColonMatch]
  rw [if_neg (show ¬((' ' : Char) = ';') from by decide)]
  exact seekSemi_append _ (by decide) tail

theorem takeMatch_not_t {c : Char} (cs : List Char) (h : c ≠ 't') :
    takeMatch (c :: cs) = none := by
  unfold takeMatch
  have hp : isPre PAT (c :: cs) = false := by
    show isPre ('t' :: ("ransform:").data) (c :: cs) = false
    unfold isPre
    simp [Ne.symm h]
  rw [hp]
  simp

theorem rmTAux_no_t : ∀ l : List Char, 't' ∉ l → rmTAux l = l := by
  intro l
  induction l with
  | nil =>
    intro _
    rw [rmTAux.eq_def]
  | cons c cs ih =>
    intro h
    have hc : c ≠ 't' := fun he => h (by simp [he])
    rw [rmTAux_cons_none (takeMatch_not_t cs hc), ih (fun hm => h (by simp [hm]))]

theorem nine_of_pat : ("transform").data <+: PAT := by decide

/-- Peel lemma: the scan passes over `xs` untouched when no occurrence of
`transform` can start inside `xs` (witnessed by its absence from
`xs ++ ys.take 8`). -/
theorem rmTAux_append (xs ys : List Char)
    (h : ¬ (("transform").data <:+: (xs ++ ys.take 8))) :
    rmTAux (xs ++ ys) = xs ++ rmTAux ys := by
  induction xs with
  | nil => simp
  | cons c xs' ih =>
    have hnm : takeMatch (c :: (xs' ++ ys)) = none := by
      cases htm : takeMatch (c :: (xs' ++ ys)) with
      | none => rfl
      | some r =>
        exfalso
        have hp : isPre PAT (c :: (xs' ++ ys)) = true := by
          by_contra hnp
          rw [Bool.not_eq_true] at hnp
          unfold takeMatch at htm
          rw [hnp] at htm
          simp at htm
        have hpre : PAT <+: (c :: (xs' ++ ys)) := (isPre_iff _ _).mp hp
        have h9 : ("transform").data <+: (c :: (xs' ++ ys)) := nine_of_pat.trans hpre
        apply h
        have hlen9 : (("transform").data).length = 9 := rfl
        have h9take : ("transform").data = ((c :: xs') ++ ys).take 9 := by
          have hq := List.prefix_iff_eq_take.mp h9
          rw [hlen9] at hq
          exact hq
        rw [List.take_append_eq_append_take] at h9take
        by_cases hlen : (c :: xs').length ≤ 9
        · have h0 : 9 - (c :: xs').length ≤ 8 := by
            simp only [List.length_cons] at hlen ⊢
            omega
          refine List.IsPrefix.isInfix ?_
          rw [h9take]
          refine ⟨(ys.take 8).drop (9 - (c :: xs').length), ?_⟩
          have hcx : (c :: xs').take 9 = c :: xs' := List.take_of_length_le hlen
          rw [hcx]
          rw [List.append_assoc]
          congr 1
          rw [show ys.take (9 - (c :: xs').length) = (ys.take 8).take (9 - (c :: xs').length)
            from by rw [List.take_take, Nat.min_eq_left h0]]
          exact List.take_append_drop _ _
        · push_neg at hlen
          have h0 : 9 - (c :: xs').length = 0 := by omega
          rw [h0] at h9take
          rw [List.take_zero, List.append_nil] at h9take
          have hpx : ("transform").data <+: (c :: xs') := by
            rw [h9take]
            exact List.take_prefix _ _
          exact (hpx.trans (List.prefix_append _ _)).isInfix
    rw [List.cons_append, rmTAux_cons_none hnm]
    rw [ih (fun hin => h (by rw [List.cons_append]; exact infix_cons c hin))]
    rfl

theorem headNe_of_head {v : List Char} {c0 b : Char} (h1 : v.head? = some c0)
    (h2 : c0 ≠ b) : ∀ c, v.head? = some c → c ≠ b := by
  intro c hc
  rw [h1] at hc
  exact (Option.some.inj hc) ▸ h2

theorem headNe_append {u v : List Char} {b : Char}
    (hu : ∀ c, u.head? = some c → c ≠ b) (hv : ∀ c, v.head? = some c → c ≠ b) :
    ∀ c, (u ++ v).head? = some c → c ≠ b := by
  intro c hc
  cases u with
  | nil => exact hv c (by simpa using hc)
  | cons x t => exact hu c (by simpa using hc)

theorem safeHeadNe {s : String} (hs : safeChars s) :
    ∀ c, s.data.head? = some c → c ≠ ('m') := by
  intro c hc hcm
  subst hcm
  exact absurd (hs ('m') (List.mem_of_mem_head? (Option.mem_def.mpr hc))) (by decide)

theorem rmTAux_of_takeMatch {l r : List Char} (h : takeMatch l = some r) :
    rmTAux l = rmTAux r := by
  cases l with
  | nil =>
    rw [show takeMatch [] = none from rfl] at h
    exact Option.noConfusion h
  | cons c cs => exact rmTAux_cons_some h

theorem noTransform_guard {u tx rest : List Char}
    (hlen : 8 ≤ tx.length) (htx : tx.take 8 = ("transfor").data)
    (h : ¬ (['r', 'm'] <:+: u ++ ("transfor").data)) :
    ¬ (("transform").data <:+: u ++ (tx ++ rest).take 8) := by
  rw [List.take_append_of_le_length hlen, htx]
  intro hin
  exact h ((show ['r', 'm'] <:+: ("transform").data from by decide).trans hin)

/-- Running the transform-removal scan over a fully-centered style: both
single-axis declarations are consumed, everything else passes through. -/
theorem rmT_center (u1 u2 : List Char)
    (h1 : ¬ (['r', 'm'] <:+: u1 ++ ("transfor").data))
    (h2 : ¬ (['r', 'm'] <:+: u2 ++ ("transfor").data)) :
    rmTAux (u1 ++ (("transform: translateX(-50%);").data
        ++ (u2 ++ (("transform: translateY(-50%);").data ++ ("\n            ").data))))
      = u1 ++ (u2 ++ ("\n            ").data) := by
  rw [rmTAux_append u1 (("transform: translateX(-50%);").data
      ++ (u2 ++ (("transform: translateY(-50%);").data ++ ("\n            ").data)))
    (noTransform_guard (by decide) (by decide) h1)]
  rw [rmTAux_of_takeMatch (takeMatch_TX _)]
  rw [rmTAux_append u2 (("transform: translateY(-50%);").data ++ ("\n            ").data)
    (noTransform_guard (by decide) (by decide) h2)]
  rw [rmTAux_of_takeMatch (takeMatch_TY _)]
  rw [rmTAux_no_t (("\n            ").data) (by decide)]

theorem noRM_csBase {W H M P : String} (hW : safeChars W) (hH : safeChars H)
    (hM : safeChars M) (hPd : safeChars P) :
    ¬ (['r', 'm'] <:+: (csBase W H M P).data) := by
  unfold csBase
  simp only [String.data_append]
  exact noPair_append (noPair_append (noPair_append (noPair_append (noPair_append
      (noPair_append (noPair_append (noPair_append (by decide) (safe_no_rm hW)
        (safeHeadNe hW)) (by decide) (headNe_of_head rfl (by decide)))
      (safe_no_rm hH) (safeHeadNe hH)) (by decide) (headNe_of_head rfl (by decide)))
      (safe_no_rm hM) (safeHeadNe hM)) (by decide) (headNe_of_head rfl (by decide)))
      (safe_no_rm hPd) (safeHeadNe hPd)) (by decide) (headNe_of_head rfl (by decide))

theorem safe_sub_extc : ∀ c ∈ SAFE, c ∈ EXTC := by decide

theorem extc_safe {s : String} (hs : safeChars s) : ∀ c ∈ s.data, c ∈ EXTC :=
  fun c hc => safe_sub_extc c (hs c hc)

theorem extc_append {u v : List Char} (hu : ∀ c ∈ u, c ∈ EXTC)
    (hv : ∀ c ∈ v, c ∈ EXTC) : ∀ c ∈ u ++ v, c ∈ EXTC :=
  fun c hc => (List.mem_append.mp hc).elim (hu c) (hv c)

theorem extc_csBase {W H M P : String} (hW : safeChars W) (hH : safeChars H)
    (hM : safeChars M) (hPd : safeChars P) :
    ∀ c ∈ (csBase W H M P).data, c ∈ EXTC := by
  unfold csBase
  simp only [String.data_append]
  exact extc_append (extc_append (extc_append (extc_append (extc_append (extc_append
    (extc_append (extc_append (by decide) (extc_safe hW)) (by decide)) (extc_safe hH))
    (by decide)) (extc_safe hM)) (by decide)) (extc_safe hPd)) (by decide)

/-- The fully-centered branch of `calculateConstraintStyle`: the removal pass
leaves a prefix with no transform declaration at all (in particular neither
single-axis translate), and the combined translate is the single appended
transform. -/
theorem centering_final (W H M P : String) (hb vb : Option JNum)
    (hW : safeChars W) (hH : safeChars H) (hM : safeChars M) (hPd : safeChars P) :
    ∃ pre : String,
      removeTransformDecls (csBase W H M P ++ hCenterBlock hb ++ vCenterBlock vb)
          ++ "transform: translate(-50%, -50%);"
        = pre ++ "transform: translate(-50%, -50%);"
        ∧ jsIncludes pre ("transform:") = false
        ∧ jsIncludes pre ("translateX") = false
        ∧ jsIncludes pre ("translateY") = false := by
  obtain ⟨bx, hbxe, hbx⟩ : ∃ s : String,
      numOptRender (Option.map (fun q => jsMulNum q ⟨100, 0⟩) hb) = s ∧ safeChars s :=
    ⟨_, rfl, numOptRender_safe _⟩
  obtain ⟨bv, hbve, hbv⟩ : ∃ s : String,
      numOptRender (Option.map (fun q => jsMulNum q ⟨100, 0⟩) vb) = s ∧ safeChars s :=
    ⟨_, rfl, numOptRender_safe _⟩
  obtain ⟨cb, hcbe, hcbrm, hcbext⟩ : ∃ s : String, csBase W H M P = s
      ∧ ¬ (['r', 'm'] <:+: s.data) ∧ (∀ c ∈ s.data, c ∈ EXTC) :=
    ⟨_, rfl, noRM_csBase hW hH hM hPd, extc_csBase hW hH hM hPd⟩
  have hS2 : (csBase W H M P ++ hCenterBlock hb ++ vCenterBlock vb).data
      = (cb.data ++ (("\n                left: ").data
          ++ (bx.data ++ ("%;\n                ").data)))
        ++ (("transform: translateX(-50%);").data
          ++ ((("\n            ").data ++ (("\n                top: ").data
              ++ (bv.data ++ ("%;\n                ").data)))
            ++ (("transform: translateY(-50%);").data ++ ("\n            ").data))) := by
    rw [← hbxe, ← hbve, ← hcbe]
    simp only [hCenterBlock, vCenterBlock, String.data_append, List.append_assoc,
      List.cons_append, List.nil_append]
  have hu1 : ¬ (['r', 'm'] <:+: (cb.data ++ (("\n                left: ").data
      ++ (bx.data ++ ("%;\n                ").data))) ++ ("transfor").data) :=
    noPair_append
      (noPair_append hcbrm
        (noPair_append (by decide)
          (noPair_append (safe_no_rm hbx) (by decide) (headNe_of_head rfl (by decide)))
          (headNe_append (safeHeadNe hbx) (headNe_of_head rfl (by decide))))
        (headNe_of_head rfl (by decide)))
      (by decide) (headNe_of_head rfl (by decide))
  have hu2 : ¬ (['r', 'm'] <:+: (("\n            ").data ++ (("\n                top: ").data
      ++ (bv.data ++ ("%;\n                ").data))) ++ ("transfor").data) :=
    noPair_append
      (noPair_append (by decide)
        (noPair_append (by decide)
          (noPair_append (safe_no_rm hbv) (by decide) (headNe_of_head rfl (by decide)))
          (headNe_append (safeHeadNe hbv) (headNe_of_head rfl (by decide))))
        (headNe_of_head rfl (by decide)))
      (by decide) (headNe_of_head rfl (by decide))
  have hdata : (removeTransformDecls (csBase W H M P ++ hCenterBlock hb ++ vCenterBlock vb)).data
      = (cb.data ++ (("\n                left: ").data
          ++ (bx.data ++ ("%;\n                ").data)))
        ++ ((("\n            ").data ++ (("\n                top: ").data
            ++ (bv.data ++ ("%;\n                ").data)))
          ++ ("\n            ").data) := by
    unfold removeTransformDecls
    rw [hS2]
    rw [rmT_center _ _ hu1 hu2]
  have hU1nr : ¬ (['r', 'm'] <:+: cb.data ++ (("\n                left: ").data
      ++ (bx.data ++ ("%;\n                ").data))) :=
    fun hin => hu1 (hin.trans (List.prefix_append _ _).isInfix)
  have hU2nr : ¬ (['r', 'm'] <:+: ("\n            ").data ++ (("\n                top: ").data
      ++ (bv.data ++ ("%;\n                ").data))) :=
    fun hin => hu2 (hin.trans (List.prefix_append _ _).isInfix)
  have hF : ¬ (['r', 'm'] <:+: (cb.data ++ (("\n                left: ").data
      ++ (bx.data ++ ("%;\n                ").data)))
        ++ ((("\n            ").data ++ (("\n                top: ").data
            ++ (bv.data ++ ("%;\n                ").data)))
          ++ ("\n            ").data)) :=
    noPair_append hU1nr
      (noPair_append hU2nr (by decide) (headNe_of_head rfl (by decide)))
      (headNe_of_head rfl (by decide))
  have hextF : ∀ c ∈ (cb.data ++ (("\n                left: ").data
      ++ (bx.data ++ ("%;\n                ").data)))
        ++ ((("\n            ").data ++ (("\n                top: ").data
            ++ (bv.data ++ ("%;\n                ").data)))
          ++ ("\n            ").data), c ∈ EXTC :=
    extc_append
      (extc_append hcbext (extc_append (by decide)
        (extc_append (extc_safe hbx) (by decide))))
      (extc_append
        (extc_append (by decide) (extc_append (by decide)
          (extc_append (extc_safe hbv) (by decide))))
        (by decide))
  refine ⟨removeTransformDecls (csBase W H M P ++ hCenterBlock hb ++ vCenterBlock vb),
    rfl, ?_, ?_, ?_⟩
  · refine Bool.eq_false_iff.mpr (fun ht => ?_)
    have hinf := (jsIncludes_iff _ _).mp ht
    rw [hdata] at hinf
    exact hF ((show ['r', 'm'] <:+: ("transform:").data from by decide).trans hinf)
  · refine Bool.eq_false_iff.mpr (fun ht => ?_)
    have hinf := (jsIncludes_iff _ _).mp ht
    rw [hdata] at hinf
    have hXmem := hinf.subset (show ('X') ∈ ("translateX").data from by decide)
    exact absurd (hextF ('X') hXmem) (by decide)
  · refine Bool.eq_false_iff.mpr (fun ht => ?_)
    have hinf := (jsIncludes_iff _ _).mp ht
    rw [hdata] at hinf
    have hYmem := hinf.subset (show ('Y') ∈ ("translateY").data from by decide)
    exact absurd (hextF ('Y') hYmem) (by decide)

/-- C8: for every layout node anchored on both horizontal edges to `parent`
and both vertical edges to `parent`, the computed style is a prefix followed
by the single combined two-dimensional centering transform
`transform: translate(-50%, -50%);`, and that prefix contains no transform
declaration at all — in particular neither of the single-axis
`translateX`/`translateY` transforms introduced earlier in the computation
(they are removed before the combined one is appended). -/
theorem c8_combined_centering (props : JValue)
    (hL : (constraintsOf props).leftToLeft = some ("parent"))
    (hR : (constraintsOf props).rightToRight = some ("parent"))
    (hT : (constraintsOf props).topToTop = some ("parent"))
    (hB : (constraintsOf props).bottomToBottom = some ("parent")) :
    ∃ pre : String,
      nodeStyle props = pre ++ "transform: translate(-50%, -50%);"
        ∧ jsIncludes pre ("transform:") = false
        ∧ jsIncludes pre ("translateX") = false
        ∧ jsIncludes pre ("translateY") = false := by
  unfold nodeStyle calculateConstraintStyle
  dsimp only
  rw [if_pos ⟨⟨hL, hR⟩, ⟨hT, hB⟩⟩, if_pos ⟨hT, hB⟩, if_pos ⟨hL, hR⟩]
  exact centering_final _ _ _ _ _ _ (convertLayoutDimension_safe _)
    (convertLayoutDimension_safe _) (getMarginStyle_safe _) (getPaddingStyle_safe _)

/-- Witness for C8 at a concrete fully-anchored node. -/
theorem c8_combined_centering_witness : ∃ pre : String,
    nodeStyle c8props = pre ++ "transform: translate(-50%, -50%);"
      ∧ jsIncludes pre ("transform:") = false
      ∧ jsIncludes pre ("translateX") = false
      ∧ jsIncludes pre ("translateY") = false :=
  c8_combined_centering c8props (by decide) (by decide) (by decide) (by decide)
